import Mathlib

/-!
Credential verification service of the issuer node.

A shallow embedding of `issuer-node/internal/core/services/verification.go`
(the verification service) and of the handlers of
`issuer-node/internal/api/verification.go`, followed by theorems about them.

Modelling conventions.

* A Go `error` is a `GoError`: its message and whether `errors.Is` recognises
  `services.ErrCredentialNotFound` in its chain. A nil error is `none`.
* A Go function returning `(value, error)` whose value is built before the
  error is known (the service methods) returns a pair `value × Option GoError`.
  The collaborators outside this repository (claims repository, go-ethereum,
  the DID parser, the W3C projector) are fields of `verification`; their
  `(value, error)` results are `Except GoError value`, because every caller
  tests the error before it reads the value.
* `map[string]interface{}` is an association list `GoMap`; `GoMap.set` is the
  assignment `m[k] = v`.
* `time.Time` is `Time`, an instant in nanoseconds since the Unix epoch. The
  reading of `time.Now()` is the parameter `now`.
* `context.Context` and logging have no effect on results and are left out.
-/

namespace Gate

/-! ## Go runtime values -/

/-- Go `error` value: the text of `Error()` and whether
`errors.Is(err, services.ErrCredentialNotFound)` holds. -/
structure GoError where
  msg : String
  isCredentialNotFound : Bool
deriving DecidableEq, Repr

/-- Go `fmt.Errorf` with the format already applied: a fresh error. -/
def fmtErrorf (msg : String) : GoError :=
  { msg := msg, isCredentialNotFound := false }

/-- Go `errors.Wrap(err, message)` of github.com/pkg/errors: the message is
prefixed, the cause chain (and so `errors.Is`) is kept. -/
def errorsWrap (err : GoError) (message : String) : GoError :=
  { msg := message ++ ": " ++ err.msg, isCredentialNotFound := err.isCredentialNotFound }

/-- The sentinel `services.ErrCredentialNotFound`. -/
def ErrCredentialNotFound : GoError :=
  { msg := "credential not found", isCredentialNotFound := true }

/-- Instant of `time.Time`, in nanoseconds since the Unix epoch. -/
structure Time where
  nanos : Int
deriving DecidableEq, Repr

/-- Go `t.Unix()`: whole seconds since the epoch, rounded down. -/
def Time.Unix (t : Time) : Int :=
  t.nanos / 1000000000

/-- Go `t.After(u)`. -/
def Time.After (t u : Time) : Bool :=
  decide (u.nanos < t.nanos)

/-- Values stored under `interface{}` in the maps of the results. -/
inductive Value where
  | bool (b : Bool)
  | int (n : Int)
  | str (s : String)
  | time (t : Time)
deriving DecidableEq, Repr

/-- Go `map[string]interface{}`. -/
abbrev GoMap := List (String × Value)

/-- Go `m[k] = v`: the entry for `k` is replaced, or added when absent. -/
def GoMap.set (m : GoMap) (k : String) (v : Value) : GoMap :=
  m.filter (fun e => e.1 != k) ++ [(k, v)]

/-- Go `m[k]` with the presence flag. -/
def GoMap.get (m : GoMap) (k : String) : Option Value :=
  m.lookup k

/-- Go `strings.TrimPrefix(s, p)`. -/
def TrimPrefix (s p : String) : String :=
  if p.data.isPrefixOf s.data then String.mk (s.data.drop p.data.length) else s

/-- Go `strings.Contains(s, sub)`, as a proposition on the characters. -/
def Contains (s sub : String) : Prop :=
  sub.data <:+: s.data

instance (s sub : String) : Decidable (Contains s sub) := by
  unfold Contains
  infer_instance

/-! ## Domain types -/

/-- Go `uuid.UUID`, identified with its canonical text form. -/
structure UUID where
  text : String
deriving DecidableEq, Repr

/-- Go `uuid.UUID.String`. -/
def UUID.String (u : UUID) : String :=
  u.text

/-- Parsed `w3c.DID`, identified with the text it was parsed from. -/
structure DID where
  text : String
deriving DecidableEq, Repr

/-- The fields of `domain.Claim` that the verification service reads, and
`OtherIdentifier`, the subject identifier of the claim, which it does not read. -/
structure Claim where
  ID : UUID
  Identifier : String
  OtherIdentifier : String
  SchemaURL : String
  SchemaType : String
  CreatedAt : Time
  Expiration : Option Time
  Revoked : Bool
deriving DecidableEq, Repr

/-- Dynamic value of `credentialSubject`: absent, a string-keyed map, or a
value of another type. -/
inductive Subject where
  | null
  | map (m : GoMap)
  | other
deriving DecidableEq, Repr

/-- The part of `verifiable.W3CCredential` the service looks at. -/
structure W3CCredential where
  ID : String
  CredentialSubject : Subject
deriving DecidableEq, Repr

/-- Type `ports.ClaimsFilter`, the two fields the service sets. -/
structure ClaimsFilter where
  SchemaID : Option String
  SchemaType : Option String
deriving DecidableEq, Repr

/-- Constant `circuits.AuthV2CircuitID` of go-circuits. -/
def AuthV2CircuitID : String := "authV2"

/-! ## Result and request objects (`ports/verification_service.go`) -/

structure CredentialOwnershipResult where
  WalletAddress : String
  CredentialID : String
  IsOwner : Bool
  Credential : Option W3CCredential
  VerificationMethod : String
  Timestamp : Int
  Metadata : GoMap
deriving DecidableEq, Repr

structure SchemaCredentialResult where
  WalletAddress : String
  SchemaURL : String
  HasCredentials : Bool
  CredentialCount : Int
  Credentials : List W3CCredential
  Timestamp : Int
deriving DecidableEq, Repr

structure TypeCredentialResult where
  WalletAddress : String
  CredentialType : String
  HasCredentials : Bool
  CredentialCount : Int
  Credentials : List W3CCredential
  Timestamp : Int
deriving DecidableEq, Repr

structure ProofRequirements where
  SchemaURL : String
  CredentialType : String
  MinAge : Option Int
  Country : String
  CustomClaims : GoMap
deriving DecidableEq, Repr

structure ZKProofVerificationRequest where
  WalletAddress : String
  Proof : GoMap
  PublicSignals : List String
  CircuitID : String
  Challenge : String
  Requirements : Option ProofRequirements
deriving DecidableEq, Repr

structure ZKProofResult where
  WalletAddress : String
  IsValid : Bool
  ProofVerified : Bool
  RequirementsMet : Bool
  VerificationTime : Int
  CircuitID : String
  PublicOutputs : GoMap
  Error : String
deriving DecidableEq, Repr

structure VerifiedCredential where
  Credential : W3CCredential
  IsRevoked : Bool
  IsExpired : Bool
  IssuerDID : String
  SubjectDID : String
  SchemaURL : String
  CredentialType : String
  IssuanceDate : Int
  ExpirationDate : Option Int
deriving DecidableEq, Repr

structure WalletCredentialsResult where
  WalletAddress : String
  CredentialCount : Int
  Credentials : List VerifiedCredential
  Timestamp : Int
deriving DecidableEq, Repr

/-! ## The service (`services/verification.go`) -/

/-- The receiver `verification` of the service methods: the claims repository
it reads (`claimRepo`, a snapshot: a read is a function of its arguments), and
the library functions the methods call. The `identityRepo`, `zkGenerator` and
`schemaLoader` fields are stored by the constructor and never used. -/
structure verification where
  /-- Method `claimRepo.GetByIdAndIssuer`; the claim pointer may be nil. -/
  GetByIdAndIssuer : DID → UUID → Except GoError (Option Claim)
  /-- Method `claimRepo.GetAll`, its claims (the total is dropped by every caller). -/
  GetAll : DID → ClaimsFilter → Except GoError (List Claim)
  /-- Function `common.IsHexAddress` of go-ethereum. -/
  IsHexAddress : String → Bool
  /-- Function `w3c.ParseDID` of go-iden3-core. -/
  ParseDID : String → Except GoError DID
  /-- Function `schema.FromClaimModelToW3CCredential`. -/
  FromClaimModelToW3CCredential : Claim → Except GoError W3CCredential

/-- Method `walletAddressToDID`: converts an Ethereum wallet address to a DID. -/
def walletAddressToDID (v : verification) (walletAddress : String) : Except GoError DID :=
  if !v.IsHexAddress walletAddress then
    .error (fmtErrorf ("invalid wallet address format: " ++ walletAddress))
  else
    match v.ParseDID ("did:polygonid:polygon:mumbai:" ++ TrimPrefix walletAddress "0x") with
    | .error err => .error (errorsWrap err "failed to parse DID")
    | .ok did => .ok did

/-- Method `findCredentialBySubject`: "For now, we'll return not found". -/
def findCredentialBySubject (_v : verification) (_walletAddress : String)
    (_credentialID : UUID) : Except GoError (Option Claim) :=
  .error ErrCredentialNotFound

/-- Method `findCredentialsBySchema`. -/
def findCredentialsBySchema (v : verification) (walletAddress schemaURL : String) :
    Except GoError (List Claim) :=
  match walletAddressToDID v walletAddress with
  | .error err => .error err
  | .ok did => v.GetAll did { SchemaID := some schemaURL, SchemaType := none }

/-- Method `findCredentialsByType`. -/
def findCredentialsByType (v : verification) (walletAddress credentialType : String) :
    Except GoError (List Claim) :=
  match walletAddressToDID v walletAddress with
  | .error err => .error err
  | .ok did => v.GetAll did { SchemaID := none, SchemaType := some credentialType }

/-- The conversion loop shared by the list methods: every claim is projected,
a claim whose projection fails is skipped (`continue`). -/
def convertClaims (v : verification) (credentials : List Claim) : List W3CCredential :=
  credentials.filterMap fun claim =>
    match v.FromClaimModelToW3CCredential claim with
    | .error _ => none
    | .ok w3cCred => some w3cCred

/-- Method `VerifyCredentialsBySchema`. -/
def VerifyCredentialsBySchema (v : verification) (now : Time)
    (walletAddress schemaURL : String) : SchemaCredentialResult × Option GoError :=
  let result : SchemaCredentialResult :=
    { WalletAddress := walletAddress, SchemaURL := schemaURL, HasCredentials := false,
      CredentialCount := 0, Credentials := [], Timestamp := now.Unix }
  match findCredentialsBySchema v walletAddress schemaURL with
  | .error err => (result, some (errorsWrap err "failed to find credentials by schema"))
  | .ok credentials =>
    if credentials.length > 0 then
      ({ result with
          HasCredentials := true
          CredentialCount := credentials.length
          Credentials := convertClaims v credentials }, none)
    else
      (result, none)

/-- Method `VerifyCredentialsByType`. -/
def VerifyCredentialsByType (v : verification) (now : Time)
    (walletAddress credentialType : String) : TypeCredentialResult × Option GoError :=
  let result : TypeCredentialResult :=
    { WalletAddress := walletAddress, CredentialType := credentialType, HasCredentials := false,
      CredentialCount := 0, Credentials := [], Timestamp := now.Unix }
  match findCredentialsByType v walletAddress credentialType with
  | .error err => (result, some (errorsWrap err "failed to find credentials by type"))
  | .ok credentials =>
    if credentials.length > 0 then
      ({ result with
          HasCredentials := true
          CredentialCount := credentials.length
          Credentials := convertClaims v credentials }, none)
    else
      (result, none)

/-- Method `verifyAuthCircuit`: nil exactly when there are at least two
public signals. -/
def verifyAuthCircuit (pubsignals : List String) : Option GoError :=
  if pubsignals.length < 2 then
    some (fmtErrorf "insufficient public signals for auth circuit")
  else
    none

/-- Method `verifyProofCryptography`: the verification handler applied to the
request's circuit id and public signals; returns `(err == nil, err)`. -/
def verifyProofCryptography (req : ZKProofVerificationRequest) : Bool × Option GoError :=
  let err : Option GoError :=
    if req.CircuitID = AuthV2CircuitID then
      verifyAuthCircuit req.PublicSignals
    else
      some (fmtErrorf ("unsupported circuit ID: " ++ req.CircuitID))
  (err.isNone, err)

/-- Runs a body in which `Except.error r` stands for an early `return r`. -/
def returning {α : Type} (body : Except α α) : α :=
  match body with
  | .error r => r
  | .ok r => r

/-- Method `verifyProofRequirements`, with `requirements` the dereferenced
`req.Requirements` (the method is called only when that pointer is non-nil). -/
def verifyProofRequirements (v : verification) (now : Time)
    (req : ZKProofVerificationRequest) (requirements : ProofRequirements) :
    Bool × GoMap × Option GoError :=
  returning do
    let outputs : GoMap := []
    -- Verify schema requirement
    let outputs ←
      if requirements.SchemaURL ≠ "" then
        match VerifyCredentialsBySchema v now req.WalletAddress requirements.SchemaURL with
        | (_, some err) =>
          Except.error (false, outputs, some (errorsWrap err "schema requirement verification failed"))
        | (schemaResult, none) =>
          if !schemaResult.HasCredentials then
            Except.error (false, outputs.set "schema_verification" (.bool false), none)
          else
            pure ((outputs.set "schema_verification" (.bool true)).set
              "schema_credentials_count" (.int schemaResult.CredentialCount))
      else
        pure outputs
    -- Verify credential type requirement
    let outputs ←
      if requirements.CredentialType ≠ "" then
        match VerifyCredentialsByType v now req.WalletAddress requirements.CredentialType with
        | (_, some err) =>
          Except.error (false, outputs,
            some (errorsWrap err "credential type requirement verification failed"))
        | (typeResult, none) =>
          if !typeResult.HasCredentials then
            Except.error (false, outputs.set "type_verification" (.bool false), none)
          else
            pure ((outputs.set "type_verification" (.bool true)).set
              "type_credentials_count" (.int typeResult.CredentialCount))
      else
        pure outputs
    let outputs :=
      match requirements.MinAge with
      | some minAge => outputs.set "min_age_requirement" (.int minAge)
      | none => outputs
    let outputs :=
      if requirements.Country ≠ "" then
        outputs.set "country_requirement" (.str requirements.Country)
      else
        outputs
    pure (true, outputs, none)

/-- Method `VerifyZKProof`: verifies a zero-knowledge proof for credential
ownership. The Go `%v` of an error is its message. -/
def VerifyZKProof (v : verification) (now : Time) (req : ZKProofVerificationRequest) :
    ZKProofResult × Option GoError :=
  let result : ZKProofResult :=
    { WalletAddress := req.WalletAddress, IsValid := false, ProofVerified := false,
      RequirementsMet := false, VerificationTime := now.Unix, CircuitID := req.CircuitID,
      PublicOutputs := [], Error := "" }
  match verifyProofCryptography req with
  | (_, some err) =>
    ({ result with Error := "proof verification failed: " ++ err.msg }, none)
  | (proofValid, none) =>
    let result := { result with ProofVerified := proofValid }
    if !proofValid then
      ({ result with Error := "cryptographic proof verification failed" }, none)
    else
      match req.Requirements with
      | some requirements =>
        match verifyProofRequirements v now req requirements with
        | (_, _, some err) =>
          ({ result with Error := "requirements verification failed: " ++ err.msg }, none)
        | (requirementsMet, outputs, none) =>
          ({ result with
              RequirementsMet := requirementsMet
              PublicOutputs := outputs
              IsValid := proofValid && requirementsMet }, none)
      | none =>
        ({ result with RequirementsMet := true, IsValid := proofValid }, none)

/-- Method `VerifyCredentialOwnership`: verifies if a wallet address owns a
specific credential. The by-subject lookup is reached only when the
repository error is `ErrCredentialNotFound`. -/
def VerifyCredentialOwnership (v : verification) (now : Time) (walletAddress : String)
    (credentialID : UUID) : CredentialOwnershipResult × Option GoError :=
  let result : CredentialOwnershipResult :=
    { WalletAddress := walletAddress, CredentialID := credentialID.String, IsOwner := false,
      Credential := none, VerificationMethod := "direct_lookup", Timestamp := now.Unix,
      Metadata := [] }
  returning do
    -- Convert wallet address to DID format
    let did ←
      match walletAddressToDID v walletAddress with
      | .error err =>
        Except.error (result, some (errorsWrap err "failed to convert wallet address to DID"))
      | .ok did => pure did
    -- Look up the credential
    let claim ←
      match v.GetByIdAndIssuer did credentialID with
      | .error err =>
        if err.isCredentialNotFound then
          match findCredentialBySubject v walletAddress credentialID with
          | .error _ => Except.error (result, none)
          | .ok claim => pure claim
        else
          Except.error (result, some (errorsWrap err "failed to retrieve credential"))
      | .ok claim => pure claim
    match claim with
    | some claim =>
      let result := { result with IsOwner := true }
      let result :=
        match v.FromClaimModelToW3CCredential claim with
        | .error _ => result
        | .ok w3cCred => { result with Credential := some w3cCred }
      let metadata := result.Metadata.set "credential_type" (.str claim.SchemaType)
      let metadata := metadata.set "issuer_did" (.str claim.Identifier)
      let metadata := metadata.set "issuance_date" (.time claim.CreatedAt)
      let metadata :=
        match claim.Expiration with
        | some expiration => metadata.set "expiration_date" (.time expiration)
        | none => metadata
      pure ({ result with Metadata := metadata }, none)
    | none => pure (result, none)

/-- Method `findAllCredentialsForWallet`. -/
def findAllCredentialsForWallet (v : verification) (walletAddress : String) :
    Except GoError (List Claim) :=
  match walletAddressToDID v walletAddress with
  | .error err => .error err
  | .ok did => v.GetAll did { SchemaID := none, SchemaType := none }

/-- Method `convertToVerifiedCredential`: converts a claim to a verified
credential with status checks. The expiration date is the `Unix()` value of
the claim's expiration. -/
def convertToVerifiedCredential (v : verification) (now : Time) (claim : Claim) :
    Except GoError VerifiedCredential :=
  match v.FromClaimModelToW3CCredential claim with
  | .error err => .error (errorsWrap err "failed to convert to W3C credential")
  | .ok w3cCred =>
    let verifiedCred : VerifiedCredential :=
      { Credential := w3cCred
        IsRevoked := claim.Revoked
        IsExpired := false
        IssuerDID := claim.Identifier
        SubjectDID := ""
        SchemaURL := claim.SchemaURL
        CredentialType := claim.SchemaType
        IssuanceDate := claim.CreatedAt.Unix
        ExpirationDate := none }
    -- Check expiration
    let verifiedCred :=
      match claim.Expiration with
      | some expirationTime =>
        { verifiedCred with
          ExpirationDate := some expirationTime.Unix
          IsExpired := now.After expirationTime }
      | none => verifiedCred
    -- Extract subject DID from credential
    let verifiedCred :=
      match w3cCred.CredentialSubject with
      | .map subjectMap =>
        match subjectMap.get "id" with
        | some (.str subjectIDStr) => { verifiedCred with SubjectDID := subjectIDStr }
        | _ => verifiedCred
      | _ => verifiedCred
    .ok verifiedCred

/-- Method `GetWalletCredentials`: retrieves all credentials associated with
a wallet address; a claim whose conversion fails is skipped. -/
def GetWalletCredentials (v : verification) (now : Time) (walletAddress : String) :
    WalletCredentialsResult × Option GoError :=
  let result : WalletCredentialsResult :=
    { WalletAddress := walletAddress, CredentialCount := 0, Credentials := [],
      Timestamp := now.Unix }
  match findAllCredentialsForWallet v walletAddress with
  | .error err => (result, some (errorsWrap err "failed to find credentials for wallet"))
  | .ok credentials =>
    ({ result with
        CredentialCount := credentials.length
        Credentials := credentials.filterMap fun claim =>
          match convertToVerifiedCredential v now claim with
          | .error _ => none
          | .ok verifiedCred => some verifiedCred }, none)

/-! ## The batch handler (`api/verification.go`) -/

/-- Constant `http.StatusOK`. -/
def StatusOK : Nat := 200

/-- Constant `http.StatusBadRequest`. -/
def StatusBadRequest : Nat := 400

/-- Constant `http.StatusInternalServerError`. -/
def StatusInternalServerError : Nat := 500

/-- What a handler writes: `http.Error(w, message, code)`, or a status line
followed by the JSON encoding of a body. -/
inductive HTTPResponse (β : Type) where
  | Error (message : String) (code : Nat)
  | JSON (code : Nat) (body : β)
deriving DecidableEq, Repr

/-- Status code of a response. -/
def HTTPResponse.code {β : Type} : HTTPResponse β → Nat
  | .Error _ code => code
  | .JSON code _ => code

/-- Interface `ports.VerificationService`. The result pointers its methods
return are never nil. -/
structure VerificationService where
  VerifyCredentialOwnership : String → UUID → CredentialOwnershipResult × Option GoError
  VerifyCredentialsBySchema : String → String → SchemaCredentialResult × Option GoError
  VerifyCredentialsByType : String → String → TypeCredentialResult × Option GoError
  VerifyZKProof : ZKProofVerificationRequest → ZKProofResult × Option GoError
  GetWalletCredentials : String → WalletCredentialsResult × Option GoError

/-- The receiver `Server` of the handlers. -/
structure Server where
  verificationService : VerificationService

/-- Constructor `NewVerificationService`, for one reading of the clock. -/
def NewVerificationService (v : verification) (now : Time) : VerificationService :=
  { VerifyCredentialOwnership := VerifyCredentialOwnership v now
    VerifyCredentialsBySchema := VerifyCredentialsBySchema v now
    VerifyCredentialsByType := VerifyCredentialsByType v now
    VerifyZKProof := VerifyZKProof v now
    GetWalletCredentials := GetWalletCredentials v now }

/-- One element of `BatchVerificationRequest.Verifications`. -/
structure Verification where
  WalletAddress : String
  CredentialID : UUID
deriving DecidableEq, Repr

structure BatchVerificationRequest where
  Verifications : List Verification
deriving DecidableEq, Repr

/-- The `Summary` struct of `BatchVerificationResponse`. -/
structure BatchSummary where
  Total : Int
  Verified : Int
  Failed : Int
deriving DecidableEq, Repr

structure BatchVerificationResponse where
  Results : List CredentialOwnershipResult
  Summary : BatchSummary
deriving DecidableEq, Repr

/-- State of the loop of `BatchVerifyCredentials`: the response under
construction and, in order, the pairs the ownership service was called on. -/
structure BatchLoop where
  response : BatchVerificationResponse
  calls : List Verification
deriving DecidableEq, Repr

/-- Body of the loop of `BatchVerifyCredentials` for one pair. -/
def batchIteration (s : Server) (now : Time) (st : BatchLoop) (verification : Verification) :
    BatchLoop :=
  let calls := st.calls ++ [verification]
  match s.verificationService.VerifyCredentialOwnership verification.WalletAddress
      verification.CredentialID with
  | (_, some err) =>
    -- Create error result
    let result : CredentialOwnershipResult :=
      { WalletAddress := verification.WalletAddress
        CredentialID := verification.CredentialID.String
        IsOwner := false
        Credential := none
        VerificationMethod := "batch_verification"
        Timestamp := now.Unix
        Metadata := [("error", .str err.msg)] }
    { response :=
        { Results := st.response.Results ++ [result]
          Summary := { st.response.Summary with Failed := st.response.Summary.Failed + 1 } }
      calls := calls }
  | (result, none) =>
    if result.IsOwner then
      { response :=
          { Results := st.response.Results ++ [result]
            Summary := { st.response.Summary with Verified := st.response.Summary.Verified + 1 } }
        calls := calls }
    else
      { response := { st.response with Results := st.response.Results ++ [result] }
        calls := calls }

/-- Handler `BatchVerifyCredentials`, from the outcome of decoding the request
body on. Returns the response written and the calls made to the ownership
service. -/
def BatchVerifyCredentials (s : Server) (now : Time)
    (decoded : Except GoError BatchVerificationRequest) :
    HTTPResponse BatchVerificationResponse × List Verification :=
  match decoded with
  | .error _ => (.Error "invalid request body" StatusBadRequest, [])
  | .ok req =>
    if req.Verifications.length = 0 then
      (.Error "verifications array cannot be empty" StatusBadRequest, [])
    else if req.Verifications.length > 100 then
      (.Error "maximum 100 verifications per batch" StatusBadRequest, [])
    else
      let init : BatchLoop :=
        { response := { Results := [], Summary := { Total := 0, Verified := 0, Failed := 0 } }
          calls := [] }
      let st := req.Verifications.foldl (batchIteration s now) init
      let response : BatchVerificationResponse :=
        { st.response with
          Summary := { st.response.Summary with Total := req.Verifications.length } }
      (.JSON StatusOK response, st.calls)

/-! ## The single-wallet handlers (`api/verification.go`)

Each handler is modelled from its decoded inputs on: the URL and query
parameters as strings, the outcome of `uuid.Parse` or of decoding the body as
an `Except`. -/

/-- Handler `VerifyCredentialOwnership`; `credentialID` is the outcome of
`uuid.Parse` on the `credential_id` parameter. -/
def Server.VerifyCredentialOwnership (s : Server) (walletAddress : String)
    (credentialID : Except GoError UUID) : HTTPResponse CredentialOwnershipResult :=
  if walletAddress = "" then
    .Error "wallet address is required" StatusBadRequest
  else
    match credentialID with
    | .error _ => .Error "invalid credential ID format" StatusBadRequest
    | .ok credentialID =>
      match s.verificationService.VerifyCredentialOwnership walletAddress credentialID with
      | (_, some _) => .Error "verification failed" StatusInternalServerError
      | (result, none) => .JSON StatusOK result

/-- Handler `VerifyCredentialsBySchema`. -/
def Server.VerifyCredentialsBySchema (s : Server) (walletAddress schemaURL : String) :
    HTTPResponse SchemaCredentialResult :=
  if walletAddress = "" then
    .Error "wallet address is required" StatusBadRequest
  else if schemaURL = "" then
    .Error "schema_url parameter is required" StatusBadRequest
  else
    match s.verificationService.VerifyCredentialsBySchema walletAddress schemaURL with
    | (_, some _) => .Error "verification failed" StatusInternalServerError
    | (result, none) => .JSON StatusOK result

/-- Handler `VerifyCredentialsByType`. -/
def Server.VerifyCredentialsByType (s : Server) (walletAddress credentialType : String) :
    HTTPResponse TypeCredentialResult :=
  if walletAddress = "" then
    .Error "wallet address is required" StatusBadRequest
  else if credentialType = "" then
    .Error "credential_type parameter is required" StatusBadRequest
  else
    match s.verificationService.VerifyCredentialsByType walletAddress credentialType with
    | (_, some _) => .Error "verification failed" StatusInternalServerError
    | (result, none) => .JSON StatusOK result

/-- Handler `VerifyZKProof`; `decoded` is the outcome of decoding the body. -/
def Server.VerifyZKProof (s : Server) (decoded : Except GoError ZKProofVerificationRequest) :
    HTTPResponse ZKProofResult :=
  match decoded with
  | .error _ => .Error "invalid request body" StatusBadRequest
  | .ok req =>
    if req.WalletAddress = "" then
      .Error "wallet address is required" StatusBadRequest
    else if req.CircuitID = "" then
      .Error "circuit ID is required" StatusBadRequest
    else if req.PublicSignals.length = 0 then
      .Error "public signals are required" StatusBadRequest
    else
      match s.verificationService.VerifyZKProof req with
      | (_, some _) => .Error "verification failed" StatusInternalServerError
      | (result, none) => .JSON StatusOK result

/-- Handler `GetWalletCredentials`. -/
def Server.GetWalletCredentials (s : Server) (walletAddress : String) :
    HTTPResponse WalletCredentialsResult :=
  if walletAddress = "" then
    .Error "wallet address is required" StatusBadRequest
  else
    match s.verificationService.GetWalletCredentials walletAddress with
    | (_, some _) => .Error "failed to retrieve credentials" StatusInternalServerError
    | (result, none) => .JSON StatusOK result

/-- The entry that the loop of `BatchVerifyCredentials` appends for a pair:
the result of the ownership service, or the synthesized error result. -/
def batchEntry (s : Server) (now : Time) (verification : Verification) :
    CredentialOwnershipResult :=
  match s.verificationService.VerifyCredentialOwnership verification.WalletAddress
      verification.CredentialID with
  | (_, some err) =>
    { WalletAddress := verification.WalletAddress
      CredentialID := verification.CredentialID.String
      IsOwner := false
      Credential := none
      VerificationMethod := "batch_verification"
      Timestamp := now.Unix
      Metadata := [("error", .str err.msg)] }
  | (result, none) => result

/-! ## Sample data

A repository snapshot with one claim, used to evaluate the definitions on
concrete requests. -/

/-- The syntactic check of a hex address: an optional `0x` or `0X`, then
forty hexadecimal digits. -/
def sampleIsHexAddress (s : String) : Bool :=
  let body :=
    match s.data with
    | '0' :: 'x' :: rest => rest
    | '0' :: 'X' :: rest => rest
    | cs => cs
  body.length == 40 && body.all fun c =>
    ('0' ≤ c && c ≤ '9') || ('a' ≤ c && c ≤ 'f') || ('A' ≤ c && c ≤ 'F')

/-- A wallet address that passes the hex-address check. -/
def sampleWallet : String := "0x00000000000000000000000000000000000000ab"

/-- The DID of `sampleWallet`. -/
def sampleDID : DID :=
  { text := "did:polygonid:polygon:mumbai:00000000000000000000000000000000000000ab" }

/-- The claim of the direct-ownership scenario. -/
def sampleClaim : Claim :=
  { ID := { text := "550e8400-e29b-41d4-a716-446655440000" }
    Identifier := "did:polygonid:polygon:mumbai:00000000000000000000000000000000000000ab"
    OtherIdentifier := "did:polygonid:polygon:mumbai:00000000000000000000000000000000000000ab"
    SchemaURL := "https://schema.example/kyc-age.json"
    SchemaType := "KYCAgeCredential"
    CreatedAt := { nanos := 1700000000000000000 }
    Expiration := none
    Revoked := false }

/-- A credential id no claim carries. -/
def absentID : UUID := { text := "650e8400-e29b-41d4-a716-446655440000" }

/-- A credential id on which the sample repository reports a backend failure. -/
def failingID : UUID := { text := "750e8400-e29b-41d4-a716-446655440000" }

/-- A service over a repository that holds `sampleClaim` for lookups by id,
fails on `failingID`, and lists no claims for any filter. -/
def sampleVerification : verification :=
  { GetByIdAndIssuer := fun _ id =>
      if id = sampleClaim.ID then .ok (some sampleClaim)
      else if id = failingID then .error (fmtErrorf "connection refused")
      else .error ErrCredentialNotFound
    GetAll := fun _ _ => .ok []
    IsHexAddress := sampleIsHexAddress
    ParseDID := fun s => .ok { text := s }
    FromClaimModelToW3CCredential := fun c => .ok { ID := c.ID.text, CredentialSubject := .null } }

/-- The same service over a repository whose list reads all fail. -/
def downVerification : verification :=
  { sampleVerification with GetAll := fun _ _ => .error (fmtErrorf "connection refused") }

/-- A clock reading. -/
def sampleNow : Time := { nanos := 1700000100000000000 }

/-- The server over `sampleVerification`. -/
def sampleServer : Server :=
  { verificationService := NewVerificationService sampleVerification sampleNow }

/-- The batch of the mixed scenario: a hit, a miss, a backend failure. -/
def sampleBatch : BatchVerificationRequest :=
  { Verifications :=
      [ { WalletAddress := sampleWallet, CredentialID := sampleClaim.ID },
        { WalletAddress := sampleWallet, CredentialID := absentID },
        { WalletAddress := sampleWallet, CredentialID := failingID } ] }

/-- A pair whose ownership verification fails in the backend. -/
def failingPair : Verification :=
  { WalletAddress := sampleWallet, CredentialID := failingID }

/-- The empty batch. -/
def emptyBatch : BatchVerificationRequest :=
  { Verifications := [] }

/-- A batch of 100 failing pairs. -/
def fullBatch : BatchVerificationRequest :=
  { Verifications := List.replicate 100 failingPair }

/-- A batch of 101 failing pairs. -/
def oversizedBatch : BatchVerificationRequest :=
  { Verifications := List.replicate 101 failingPair }

/-- An auth-v2 request with three public signals, a challenge that none of
them carries, and no requirements. -/
def sampleProofRequest : ZKProofVerificationRequest :=
  { WalletAddress := sampleWallet
    Proof := []
    PublicSignals := ["23148936466334350744548790012294489365207440754509988986684797708370051073", "12345", "5520773446973014544310168823938114211522076703208423676256414890791763155"]
    CircuitID := AuthV2CircuitID
    Challenge := "67890"
    Requirements := none }

/-- Requirements that name only a schema. -/
def schemaRequirements : ProofRequirements :=
  { SchemaURL := "https://schema.example/kyc-age.json", CredentialType := "", MinAge := none,
    Country := "", CustomClaims := [] }

/-- Requirements that name only a minimal age. -/
def minAgeRequirements : ProofRequirements :=
  { SchemaURL := "", CredentialType := "", MinAge := some 18, Country := "", CustomClaims := [] }

/-- Requirements that name only a country. -/
def countryRequirements : ProofRequirements :=
  { SchemaURL := "", CredentialType := "", MinAge := none, Country := "DE", CustomClaims := [] }

/-- Requirements that name only a custom claim. -/
def customClaimRequirements : ProofRequirements :=
  { SchemaURL := "", CredentialType := "", MinAge := none, Country := "",
    CustomClaims := [("kyc_level", .int 3)] }

/-- A hexadecimal digit, in either case. -/
def isHexCharacter (c : Char) : Bool :=
  ('0' ≤ c && c ≤ '9') || ('a' ≤ c && c ≤ 'f') || ('A' ≤ c && c ≤ 'F')

/-- A server whose verification service is the one constructed over `v`. -/
def serverOver (v : verification) (now : Time) : Server :=
  { verificationService := NewVerificationService v now }

/-- The sample wallet with its two letters in upper case. -/
def upperWallet : String := "0x00000000000000000000000000000000000000AB"

/-- The DID that `upperWallet` resolves to. -/
def upperDID : DID :=
  { text := "did:polygonid:polygon:mumbai:00000000000000000000000000000000000000AB" }

/-- A text that fails the hex-address check and is not empty. -/
def malformedWallet : String := "xyz"

/-- The DID of the issuer node. -/
def issuerDID : DID :=
  { text := "did:polygonid:polygon:mumbai:2qCU58EJgrELNZCDkSU23dQHZsBgAFWLNpNezo1g6b" }

/-- A claim issued by the node to the sample wallet: its subject is the DID
of the wallet, its issuer is not. It expires at `sampleNow`. -/
def heldClaim : Claim :=
  { ID := absentID
    Identifier := "did:polygonid:polygon:mumbai:2qCU58EJgrELNZCDkSU23dQHZsBgAFWLNpNezo1g6b"
    OtherIdentifier := "did:polygonid:polygon:mumbai:00000000000000000000000000000000000000ab"
    SchemaURL := "https://schema.example/kyc-age.json"
    SchemaType := "KYCAgeCredential"
    CreatedAt := { nanos := 1700000000000000000 }
    Expiration := some sampleNow
    Revoked := false }

/-- A service over a repository that holds `heldClaim` under the issuer's DID,
so that a lookup by the wallet's DID reports not found; the projection puts
the subject identifier of a claim under `credentialSubject.id`. -/
def subjectVerification : verification :=
  { GetByIdAndIssuer := fun did id =>
      if did = issuerDID ∧ id = heldClaim.ID then .ok (some heldClaim)
      else .error ErrCredentialNotFound
    GetAll := fun did _ => if did = issuerDID then .ok [heldClaim] else .ok []
    IsHexAddress := sampleIsHexAddress
    ParseDID := fun s => .ok { text := s }
    FromClaimModelToW3CCredential := fun c =>
      .ok { ID := c.ID.text, CredentialSubject := .map [("id", .str c.OtherIdentifier)] } }

/-- The sample request with another wallet, proof map, challenge and values
of the public signals. -/
def otherProofRequest : ZKProofVerificationRequest :=
  { WalletAddress := malformedWallet
    Proof := [("protocol", .str "groth16")]
    PublicSignals := ["1", "2", "3"]
    CircuitID := AuthV2CircuitID
    Challenge := "12345"
    Requirements := none }

/-- A batch of one pair whose wallet is malformed. -/
def malformedBatch : BatchVerificationRequest :=
  { Verifications := [{ WalletAddress := malformedWallet, CredentialID := absentID }] }

/-- A batch of one pair whose wallet is the empty string. -/
def emptyWalletBatch : BatchVerificationRequest :=
  { Verifications := [{ WalletAddress := "", CredentialID := absentID }] }

/-! ## Lemmas on the proof pipeline -/

/-- A passing cryptographic check carries no error. -/
theorem verifyProofCryptography_pass (req : ZKProofVerificationRequest)
    (h : (verifyProofCryptography req).1 = true) :
    verifyProofCryptography req = (true, none) := by
  unfold verifyProofCryptography at h ⊢
  simp only at h ⊢
  generalize (if req.CircuitID = AuthV2CircuitID then verifyAuthCircuit req.PublicSignals
    else some (fmtErrorf ("unsupported circuit ID: " ++ req.CircuitID))) = err at h ⊢
  cases err <;> simp_all

/-- A failing cryptographic check is the pair of `false` and an error. -/
theorem verifyProofCryptography_fail (req : ZKProofVerificationRequest)
    (h : (verifyProofCryptography req).1 = false ∨ (verifyProofCryptography req).2 ≠ none) :
    ∃ e, verifyProofCryptography req = (false, some e) := by
  unfold verifyProofCryptography at h ⊢
  simp only at h ⊢
  generalize (if req.CircuitID = AuthV2CircuitID then verifyAuthCircuit req.PublicSignals
    else some (fmtErrorf ("unsupported circuit ID: " ++ req.CircuitID))) = err at h ⊢
  cases err <;> simp_all

/-- The cryptographic check does not read the requirements. -/
theorem verifyProofCryptography_requirements (req : ZKProofVerificationRequest)
    (requirements : Option ProofRequirements) :
    verifyProofCryptography { req with Requirements := requirements } =
      verifyProofCryptography req := rfl

/-- A text that starts with a non-empty text is not empty. -/
theorem append_ne_empty (a b : String) (h : a ≠ "") : a ++ b ≠ "" := by
  intro hab
  apply h
  have hd : (a ++ b).data = [] := by rw [hab]
  rw [String.data_append] at hd
  exact String.ext (List.append_eq_nil.mp hd).1

/-- The schema check on a wallet whose DID has no claim of that schema. -/
theorem VerifyCredentialsBySchema_empty (v : verification) (now : Time) (wallet url : String)
    (did : DID) (hdid : walletAddressToDID v wallet = .ok did)
    (hall : v.GetAll did { SchemaID := some url, SchemaType := none } = .ok []) :
    VerifyCredentialsBySchema v now wallet url =
      ({ WalletAddress := wallet, SchemaURL := url, HasCredentials := false,
         CredentialCount := 0, Credentials := [], Timestamp := now.Unix }, none) := by
  simp [VerifyCredentialsBySchema, findCredentialsBySchema, hdid, hall]

/-! ## Theorems on `VerifyZKProof` -/

/-- C1: when the cryptographic check of a request fails (it yields false or an
error), `VerifyZKProof` returns `is_valid`, `proof_verified` and
`requirements_met` all false, and the whole return value is the same for every
value of the requirements and every service state (claims repository and
library functions): the requirements are not evaluated. -/
theorem VerifyZKProof_crypto_failure (v v' : verification) (now : Time)
    (req : ZKProofVerificationRequest) (requirements' : Option ProofRequirements)
    (h : (verifyProofCryptography req).1 = false ∨ (verifyProofCryptography req).2 ≠ none) :
    (VerifyZKProof v now req).1.IsValid = false ∧
    (VerifyZKProof v now req).1.ProofVerified = false ∧
    (VerifyZKProof v now req).1.RequirementsMet = false ∧
    VerifyZKProof v' now { req with Requirements := requirements' } =
      VerifyZKProof v now req := by
  obtain ⟨e, he⟩ := verifyProofCryptography_fail req h
  have he' : verifyProofCryptography { req with Requirements := requirements' } =
      (false, some e) := by
    rw [verifyProofCryptography_requirements, he]
  simp [VerifyZKProof, he, he']

/-- Witness of C1: a request for an unknown circuit, compared across two
repositories and two values of the requirements. -/
theorem VerifyZKProof_crypto_failure_witness :
    ((verifyProofCryptography { sampleProofRequest with CircuitID := "mystery" }).1 = false ∨
      (verifyProofCryptography { sampleProofRequest with CircuitID := "mystery" }).2 ≠ none) ∧
    ((VerifyZKProof sampleVerification sampleNow
        { sampleProofRequest with CircuitID := "mystery" }).1.IsValid = false ∧
     (VerifyZKProof sampleVerification sampleNow
        { sampleProofRequest with CircuitID := "mystery" }).1.ProofVerified = false ∧
     (VerifyZKProof sampleVerification sampleNow
        { sampleProofRequest with CircuitID := "mystery" }).1.RequirementsMet = false ∧
     VerifyZKProof downVerification sampleNow
        { ({ sampleProofRequest with CircuitID := "mystery" } : ZKProofVerificationRequest) with
          Requirements := some schemaRequirements } =
       VerifyZKProof sampleVerification sampleNow
        { sampleProofRequest with CircuitID := "mystery" }) :=
  ⟨Or.inl (by decide),
   VerifyZKProof_crypto_failure sampleVerification downVerification sampleNow
     { sampleProofRequest with CircuitID := "mystery" } (some schemaRequirements)
     (Or.inl (by decide))⟩

/-- C2: a request without requirements whose cryptographic check passes gets
`proof_verified`, `requirements_met` and `is_valid` all true and an empty
error string. -/
theorem VerifyZKProof_no_requirements (v : verification) (now : Time)
    (req : ZKProofVerificationRequest)
    (hreq : req.Requirements = none) (h : (verifyProofCryptography req).1 = true) :
    (VerifyZKProof v now req).1.ProofVerified = true ∧
    (VerifyZKProof v now req).1.RequirementsMet = true ∧
    (VerifyZKProof v now req).1.IsValid = true ∧
    (VerifyZKProof v now req).1.Error = "" := by
  simp [VerifyZKProof, verifyProofCryptography_pass req h, hreq]

/-- Witness of C2: the auth-v2 request without requirements. -/
theorem VerifyZKProof_no_requirements_witness :
    sampleProofRequest.Requirements = none ∧
    (verifyProofCryptography sampleProofRequest).1 = true ∧
    ((VerifyZKProof sampleVerification sampleNow sampleProofRequest).1.ProofVerified = true ∧
     (VerifyZKProof sampleVerification sampleNow sampleProofRequest).1.RequirementsMet = true ∧
     (VerifyZKProof sampleVerification sampleNow sampleProofRequest).1.IsValid = true ∧
     (VerifyZKProof sampleVerification sampleNow sampleProofRequest).1.Error = "") :=
  ⟨rfl, by decide,
   VerifyZKProof_no_requirements sampleVerification sampleNow sampleProofRequest rfl
     (by decide)⟩

/-- C3: for a request whose circuit id is not the auth-v2 identifier,
`VerifyZKProof` returns a nil error and a result with `proof_verified` and
`is_valid` false whose error string contains "unsupported circuit". -/
theorem VerifyZKProof_unsupported_circuit (v : verification) (now : Time)
    (req : ZKProofVerificationRequest) (h : req.CircuitID ≠ AuthV2CircuitID) :
    (VerifyZKProof v now req).2 = none ∧
    (VerifyZKProof v now req).1.ProofVerified = false ∧
    (VerifyZKProof v now req).1.IsValid = false ∧
    Contains (VerifyZKProof v now req).1.Error "unsupported circuit" := by
  have hc : verifyProofCryptography req =
      (false, some (fmtErrorf ("unsupported circuit ID: " ++ req.CircuitID))) := by
    simp [verifyProofCryptography, h]
  simp only [VerifyZKProof, hc, fmtErrorf, Contains, true_and]
  refine ⟨"proof verification failed: ".data, (" ID: " ++ req.CircuitID).data, ?_⟩
  simp [String.data_append]

/-- Witness of C3: the circuit id "mystery". -/
theorem VerifyZKProof_unsupported_circuit_witness :
    ({ sampleProofRequest with CircuitID := "mystery" } : ZKProofVerificationRequest).CircuitID ≠
      AuthV2CircuitID ∧
    ((VerifyZKProof sampleVerification sampleNow
        { sampleProofRequest with CircuitID := "mystery" }).2 = none ∧
     (VerifyZKProof sampleVerification sampleNow
        { sampleProofRequest with CircuitID := "mystery" }).1.ProofVerified = false ∧
     (VerifyZKProof sampleVerification sampleNow
        { sampleProofRequest with CircuitID := "mystery" }).1.IsValid = false ∧
     Contains (VerifyZKProof sampleVerification sampleNow
        { sampleProofRequest with CircuitID := "mystery" }).1.Error "unsupported circuit") :=
  ⟨by decide,
   VerifyZKProof_unsupported_circuit sampleVerification sampleNow
     { sampleProofRequest with CircuitID := "mystery" } (by decide)⟩

/-- C4: when the cryptographic check passes, the requirements carry a non-empty
schema URL, the wallet resolves to a DID and the claims repository lists no
claim of that schema for the DID, `VerifyZKProof` returns `proof_verified`
true, `requirements_met` and `is_valid` false, and the public output
`schema_verification` set to false. -/
theorem VerifyZKProof_schema_unmet (v : verification) (now : Time)
    (req : ZKProofVerificationRequest) (requirements : ProofRequirements) (did : DID)
    (hcrypto : (verifyProofCryptography req).1 = true)
    (hreq : req.Requirements = some requirements)
    (hurl : requirements.SchemaURL ≠ "")
    (hdid : walletAddressToDID v req.WalletAddress = .ok did)
    (hall : v.GetAll did { SchemaID := some requirements.SchemaURL, SchemaType := none } =
      .ok []) :
    (VerifyZKProof v now req).1.ProofVerified = true ∧
    (VerifyZKProof v now req).1.RequirementsMet = false ∧
    (VerifyZKProof v now req).1.IsValid = false ∧
    (VerifyZKProof v now req).1.PublicOutputs.get "schema_verification" =
      some (.bool false) := by
  have hr : verifyProofRequirements v now req requirements =
      (false, [("schema_verification", .bool false)], none) := by
    simp [verifyProofRequirements, returning, hurl,
      VerifyCredentialsBySchema_empty v now _ _ did hdid hall, GoMap.set, bind, Except.bind]
  simp [VerifyZKProof, verifyProofCryptography_pass req hcrypto, hreq, hr, GoMap.get,
    List.lookup]

/-- Witness of C4: the sample wallet has no claim of the required schema. -/
theorem VerifyZKProof_schema_unmet_witness :
    (verifyProofCryptography
      { sampleProofRequest with Requirements := some schemaRequirements }).1 = true ∧
    schemaRequirements.SchemaURL ≠ "" ∧
    walletAddressToDID sampleVerification sampleWallet = .ok sampleDID ∧
    sampleVerification.GetAll sampleDID
      { SchemaID := some schemaRequirements.SchemaURL, SchemaType := none } = .ok [] ∧
    ((VerifyZKProof sampleVerification sampleNow
        { sampleProofRequest with Requirements := some schemaRequirements }).1.ProofVerified
        = true ∧
     (VerifyZKProof sampleVerification sampleNow
        { sampleProofRequest with Requirements := some schemaRequirements }).1.RequirementsMet
        = false ∧
     (VerifyZKProof sampleVerification sampleNow
        { sampleProofRequest with Requirements := some schemaRequirements }).1.IsValid
        = false ∧
     (VerifyZKProof sampleVerification sampleNow
        { sampleProofRequest with Requirements := some schemaRequirements }).1.PublicOutputs.get
        "schema_verification" = some (.bool false)) :=
  ⟨by decide, by decide, rfl, rfl,
   VerifyZKProof_schema_unmet sampleVerification sampleNow
     { sampleProofRequest with Requirements := some schemaRequirements } schemaRequirements
     sampleDID (by decide) rfl (by decide) rfl rfl⟩

/-- C5, the code at the failing inputs: an auth-v2 request with a passing
cryptographic check whose requirements name only a minimal age, only a country
or only a custom claim gets `requirements_met` and `is_valid` true from every
service state, so also when the wallet has no credential at all; the minimal
age and the country are only echoed in the public outputs. -/
theorem VerifyZKProof_stubbed_requirements (v : verification) (now : Time) :
    (verifyProofCryptography sampleProofRequest).1 = true ∧
    sampleVerification.GetAll sampleDID { SchemaID := none, SchemaType := none } = .ok [] ∧
    (VerifyZKProof v now
      { sampleProofRequest with Requirements := some minAgeRequirements }).1.RequirementsMet
      = true ∧
    (VerifyZKProof v now
      { sampleProofRequest with Requirements := some minAgeRequirements }).1.IsValid = true ∧
    (VerifyZKProof v now
      { sampleProofRequest with Requirements := some minAgeRequirements }).1.PublicOutputs
      = [("min_age_requirement", .int 18)] ∧
    (VerifyZKProof v now
      { sampleProofRequest with Requirements := some countryRequirements }).1.RequirementsMet
      = true ∧
    (VerifyZKProof v now
      { sampleProofRequest with Requirements := some countryRequirements }).1.IsValid = true ∧
    (VerifyZKProof v now
      { sampleProofRequest with Requirements := some customClaimRequirements }).1.RequirementsMet
      = true ∧
    (VerifyZKProof v now
      { sampleProofRequest with Requirements := some customClaimRequirements }).1.IsValid
      = true := by
  refine ⟨by decide, rfl, ?_, ?_, ?_, ?_, ?_, ?_, ?_⟩ <;> rfl

/-- C6, the code at the failing input: the auth-v2 request with three public
signals and the challenge "67890", which none of the signals carries, gets
`proof_verified` and `is_valid` true from every service state. -/
theorem VerifyZKProof_challenge_unchecked (v : verification) (now : Time) :
    sampleProofRequest.CircuitID = AuthV2CircuitID ∧
    2 ≤ sampleProofRequest.PublicSignals.length ∧
    sampleProofRequest.Challenge ≠ "" ∧
    sampleProofRequest.Challenge ∉ sampleProofRequest.PublicSignals ∧
    (VerifyZKProof v now sampleProofRequest).1.ProofVerified = true ∧
    (VerifyZKProof v now sampleProofRequest).1.IsValid = true := by
  refine ⟨rfl, by decide, by decide, by decide, rfl, rfl⟩

/-- C7, counterexample: the cryptographic check passes, the requirements name
a schema URL, the wallet resolves and the repository read fails, and
`VerifyZKProof` still returns a nil error, with the failure in the result. -/
theorem VerifyZKProof_read_failure_counterexample :
    (verifyProofCryptography
      { sampleProofRequest with Requirements := some schemaRequirements }).1 = true ∧
    schemaRequirements.SchemaURL ≠ "" ∧
    walletAddressToDID downVerification sampleWallet = .ok sampleDID ∧
    downVerification.GetAll sampleDID
      { SchemaID := some schemaRequirements.SchemaURL, SchemaType := none } =
      .error (fmtErrorf "connection refused") ∧
    ¬ ((VerifyZKProof downVerification sampleNow
      { sampleProofRequest with Requirements := some schemaRequirements }).2 ≠ none) ∧
    (VerifyZKProof downVerification sampleNow
      { sampleProofRequest with Requirements := some schemaRequirements }).1.IsValid = false ∧
    (VerifyZKProof downVerification sampleNow
      { sampleProofRequest with Requirements := some schemaRequirements }).1.Error =
      "requirements verification failed: schema requirement verification failed: failed to find credentials by schema: connection refused" := by
  refine ⟨by decide, by decide, rfl, rfl, ?_, rfl, rfl⟩
  intro h
  exact h rfl

/-- C7 as amended: when the cryptographic check passes, the wallet resolves to
a DID, and a repository read that the requirements call for fails with an
error `e` (the read for a named schema URL, or the read for a named credential
type that is reached because no schema is named or the schema read found a
claim), `VerifyZKProof` returns a nil error and a result with `proof_verified`
true, `requirements_met` and `is_valid` false, and an error string that is
"requirements verification failed: " followed by the wrapped failure message:
"schema requirement verification failed: failed to find credentials by
schema: " and the message of `e` when the schema read failed, "credential type
requirement verification failed: failed to find credentials by type: " and
the message of `e` when the type read failed. -/
theorem VerifyZKProof_read_failure_is_result (v : verification) (now : Time)
    (req : ZKProofVerificationRequest) (requirements : ProofRequirements) (did : DID)
    (e : GoError)
    (hcrypto : (verifyProofCryptography req).1 = true)
    (hreq : req.Requirements = some requirements)
    (hdid : walletAddressToDID v req.WalletAddress = .ok did)
    (hfail :
      (requirements.SchemaURL ≠ "" ∧
        v.GetAll did { SchemaID := some requirements.SchemaURL, SchemaType := none } =
          .error e) ∨
      (requirements.CredentialType ≠ "" ∧
        v.GetAll did { SchemaID := none, SchemaType := some requirements.CredentialType } =
          .error e ∧
        (requirements.SchemaURL = "" ∨
          ∃ c cs, v.GetAll did { SchemaID := some requirements.SchemaURL, SchemaType := none } =
            .ok (c :: cs)))) :
    (VerifyZKProof v now req).2 = none ∧
    (VerifyZKProof v now req).1.ProofVerified = true ∧
    (VerifyZKProof v now req).1.RequirementsMet = false ∧
    (VerifyZKProof v now req).1.IsValid = false ∧
    (VerifyZKProof v now req).1.Error ≠ "" ∧
    (requirements.SchemaURL ≠ "" →
      v.GetAll did { SchemaID := some requirements.SchemaURL, SchemaType := none } = .error e →
      (VerifyZKProof v now req).1.Error =
        "requirements verification failed: schema requirement verification failed: failed to find credentials by schema: "
          ++ e.msg) ∧
    (requirements.CredentialType ≠ "" →
      v.GetAll did { SchemaID := none, SchemaType := some requirements.CredentialType } =
        .error e →
      (requirements.SchemaURL = "" ∨
        ∃ c cs, v.GetAll did { SchemaID := some requirements.SchemaURL, SchemaType := none } =
          .ok (c :: cs)) →
      (VerifyZKProof v now req).1.Error =
        "requirements verification failed: credential type requirement verification failed: failed to find credentials by type: "
          ++ e.msg) := by
  have hschema : requirements.SchemaURL ≠ "" →
      v.GetAll did { SchemaID := some requirements.SchemaURL, SchemaType := none } = .error e →
      ∃ b o, verifyProofRequirements v now req requirements =
        (b, o, some (errorsWrap (errorsWrap e "failed to find credentials by schema")
          "schema requirement verification failed")) := by
    intro hurl he
    simp [verifyProofRequirements, returning, hurl, VerifyCredentialsBySchema,
      findCredentialsBySchema, hdid, he, bind, Except.bind]
  have htype : requirements.CredentialType ≠ "" →
      v.GetAll did { SchemaID := none, SchemaType := some requirements.CredentialType } =
        .error e →
      (requirements.SchemaURL = "" ∨
        ∃ c cs, v.GetAll did { SchemaID := some requirements.SchemaURL, SchemaType := none } =
          .ok (c :: cs)) →
      ∃ b o, verifyProofRequirements v now req requirements =
        (b, o, some (errorsWrap (errorsWrap e "failed to find credentials by type")
          "credential type requirement verification failed")) := by
    intro hty he hs
    rcases hs with hurl | ⟨c, cs, hok⟩
    · simp [verifyProofRequirements, returning, hurl, hty, VerifyCredentialsByType,
        findCredentialsByType, hdid, he, bind, Except.bind, pure, Except.pure]
    · by_cases hurl : requirements.SchemaURL = ""
      · simp [verifyProofRequirements, returning, hurl, hty, VerifyCredentialsByType,
          findCredentialsByType, hdid, he, bind, Except.bind, pure, Except.pure]
      · simp [verifyProofRequirements, returning, hurl, hty, VerifyCredentialsByType,
          findCredentialsByType, VerifyCredentialsBySchema, findCredentialsBySchema,
          hdid, he, hok, bind, Except.bind, pure, Except.pure]
  have hmsg1 : "requirements verification failed: " ++
      (errorsWrap (errorsWrap e "failed to find credentials by schema")
        "schema requirement verification failed").msg =
      "requirements verification failed: schema requirement verification failed: failed to find credentials by schema: "
        ++ e.msg := by
    apply String.ext
    simp [errorsWrap, String.data_append]
  have hmsg2 : "requirements verification failed: " ++
      (errorsWrap (errorsWrap e "failed to find credentials by type")
        "credential type requirement verification failed").msg =
      "requirements verification failed: credential type requirement verification failed: failed to find credentials by type: "
        ++ e.msg := by
    apply String.ext
    simp [errorsWrap, String.data_append]
  have hform : ∀ b o err, verifyProofRequirements v now req requirements = (b, o, some err) →
      VerifyZKProof v now req =
        ({ WalletAddress := req.WalletAddress, IsValid := false, ProofVerified := true,
           RequirementsMet := false, VerificationTime := now.Unix, CircuitID := req.CircuitID,
           PublicOutputs := [], Error := "requirements verification failed: " ++ err.msg },
         none) := by
    intro b o err hr
    simp only [VerifyZKProof, verifyProofCryptography_pass req hcrypto, hreq, hr]
    rfl
  have hany : ∃ b o err, verifyProofRequirements v now req requirements = (b, o, some err) := by
    rcases hfail with ⟨hurl, he⟩ | ⟨hty, he, hs⟩
    · obtain ⟨b, o, hr⟩ := hschema hurl he
      exact ⟨b, o, _, hr⟩
    · obtain ⟨b, o, hr⟩ := htype hty he hs
      exact ⟨b, o, _, hr⟩
  obtain ⟨b, o, err, hr⟩ := hany
  refine ⟨?_, ?_, ?_, ?_, ?_, ?_, ?_⟩
  · rw [hform b o err hr]
  · rw [hform b o err hr]
  · rw [hform b o err hr]
  · rw [hform b o err hr]
  · rw [hform b o err hr]
    exact append_ne_empty _ _ (by decide)
  · intro hurl he
    obtain ⟨b1, o1, hr1⟩ := hschema hurl he
    rw [hform b1 o1 _ hr1]
    exact hmsg1
  · intro hty he hs
    obtain ⟨b2, o2, hr2⟩ := htype hty he hs
    rw [hform b2 o2 _ hr2]
    exact hmsg2

/-- Witness of C7 as amended: the schema read on the repository that is down. -/
theorem VerifyZKProof_read_failure_is_result_witness :
    (verifyProofCryptography
      { sampleProofRequest with Requirements := some schemaRequirements }).1 = true ∧
    walletAddressToDID downVerification sampleWallet = .ok sampleDID ∧
    schemaRequirements.SchemaURL ≠ "" ∧
    downVerification.GetAll sampleDID
      { SchemaID := some schemaRequirements.SchemaURL, SchemaType := none } =
      .error (fmtErrorf "connection refused") ∧
    (VerifyZKProof downVerification sampleNow
        { sampleProofRequest with Requirements := some schemaRequirements }).2 = none ∧
    (VerifyZKProof downVerification sampleNow
        { sampleProofRequest with Requirements := some schemaRequirements }).1.ProofVerified
        = true ∧
    (VerifyZKProof downVerification sampleNow
        { sampleProofRequest with Requirements := some schemaRequirements }).1.RequirementsMet
        = false ∧
    (VerifyZKProof downVerification sampleNow
        { sampleProofRequest with Requirements := some schemaRequirements }).1.IsValid
        = false ∧
    (VerifyZKProof downVerification sampleNow
        { sampleProofRequest with Requirements := some schemaRequirements }).1.Error ≠ "" ∧
    (VerifyZKProof downVerification sampleNow
        { sampleProofRequest with Requirements := some schemaRequirements }).1.Error =
      "requirements verification failed: schema requirement verification failed: failed to find credentials by schema: "
        ++ (fmtErrorf "connection refused").msg :=
  have w := VerifyZKProof_read_failure_is_result downVerification sampleNow
    { sampleProofRequest with Requirements := some schemaRequirements } schemaRequirements
    sampleDID (fmtErrorf "connection refused") (by decide) rfl rfl
    (Or.inl ⟨by decide, rfl⟩)
  ⟨by decide, rfl, by decide, rfl, w.1, w.2.1, w.2.2.1, w.2.2.2.1, w.2.2.2.2.1,
   w.2.2.2.2.2.1 (by decide) rfl⟩

/-! ## Lemmas on the batch loop -/

/-- What the loop of `BatchVerifyCredentials` adds to its state over a list of
pairs: the calls, the entries and the two counters. -/
theorem batchIteration_foldl (s : Server) (now : Time) (pairs : List Verification)
    (st : BatchLoop) :
    (pairs.foldl (batchIteration s now) st).calls = st.calls ++ pairs ∧
    (pairs.foldl (batchIteration s now) st).response.Results =
      st.response.Results ++ pairs.map (batchEntry s now) ∧
    (pairs.foldl (batchIteration s now) st).response.Summary.Total =
      st.response.Summary.Total ∧
    (pairs.foldl (batchIteration s now) st).response.Summary.Verified =
      st.response.Summary.Verified + pairs.countP (fun p =>
        (s.verificationService.VerifyCredentialOwnership p.WalletAddress p.CredentialID).2.isNone
        && (s.verificationService.VerifyCredentialOwnership p.WalletAddress
              p.CredentialID).1.IsOwner) ∧
    (pairs.foldl (batchIteration s now) st).response.Summary.Failed =
      st.response.Summary.Failed + pairs.countP (fun p =>
        (s.verificationService.VerifyCredentialOwnership p.WalletAddress
          p.CredentialID).2.isSome) := by
  induction pairs generalizing st with
  | nil => simp
  | cons p ps ih =>
    obtain ⟨h1, h2, h3, h4, h5⟩ := ih (batchIteration s now st p)
    simp only [List.foldl_cons]
    rcases hsvc : s.verificationService.VerifyCredentialOwnership p.WalletAddress p.CredentialID
      with ⟨res, _ | err⟩
    · by_cases hown : res.IsOwner = true
      · have hstep : batchIteration s now st p =
            { response :=
                { Results := st.response.Results ++ [res]
                  Summary := { st.response.Summary with
                    Verified := st.response.Summary.Verified + 1 } }
              calls := st.calls ++ [p] } := by
          simp [batchIteration, hsvc, hown]
        rw [hstep] at h1 h2 h3 h4 h5 ⊢
        rw [h1, h2, h3, h4, h5]
        simp [batchEntry, hsvc, hown, List.countP_cons]
        omega
      · have hstep : batchIteration s now st p =
            { response := { st.response with Results := st.response.Results ++ [res] }
              calls := st.calls ++ [p] } := by
          simp [batchIteration, hsvc, hown]
        rw [hstep] at h1 h2 h3 h4 h5 ⊢
        rw [h1, h2, h3, h4, h5]
        simp [batchEntry, hsvc, hown, List.countP_cons]
    · have hstep : batchIteration s now st p =
          { response :=
              { Results := st.response.Results ++
                  [{ WalletAddress := p.WalletAddress, CredentialID := p.CredentialID.String,
                     IsOwner := false, Credential := none,
                     VerificationMethod := "batch_verification",
                     Timestamp := now.Unix, Metadata := [("error", .str err.msg)] }]
                Summary := { st.response.Summary with
                  Failed := st.response.Summary.Failed + 1 } }
            calls := st.calls ++ [p] } := by
        simp [batchIteration, hsvc]
      rw [hstep] at h1 h2 h3 h4 h5 ⊢
      rw [h1, h2, h3, h4, h5]
      simp [batchEntry, hsvc, List.countP_cons]
      omega

/-- Two predicates that never hold together count at most the whole list. -/
theorem countP_add_countP_le {α : Type} (p q : α → Bool) (l : List α)
    (h : ∀ a, ¬ (p a = true ∧ q a = true)) : l.countP p + l.countP q ≤ l.length := by
  induction l with
  | nil => simp
  | cons a l ih =>
    have ha := h a
    simp only [List.countP_cons, List.length_cons]
    by_cases hp : p a = true <;> by_cases hq : q a = true <;> simp_all <;> omega

/-- The response to a batch within the bounds, in closed form. -/
theorem BatchVerifyCredentials_accepted (s : Server) (now : Time)
    (req : BatchVerificationRequest)
    (h1 : 1 ≤ req.Verifications.length) (h100 : req.Verifications.length ≤ 100) :
    ∃ body, BatchVerifyCredentials s now (.ok req) = (.JSON StatusOK body, req.Verifications) ∧
      body.Results = req.Verifications.map (batchEntry s now) ∧
      body.Summary.Total = req.Verifications.length ∧
      body.Summary.Verified = req.Verifications.countP (fun p =>
        (s.verificationService.VerifyCredentialOwnership p.WalletAddress p.CredentialID).2.isNone
        && (s.verificationService.VerifyCredentialOwnership p.WalletAddress
              p.CredentialID).1.IsOwner) ∧
      body.Summary.Failed = req.Verifications.countP (fun p =>
        (s.verificationService.VerifyCredentialOwnership p.WalletAddress
          p.CredentialID).2.isSome) := by
  obtain ⟨hc, hr, _, hv, hf⟩ := batchIteration_foldl s now req.Verifications
    { response := { Results := [], Summary := { Total := 0, Verified := 0, Failed := 0 } }
      calls := [] }
  have hne : ¬ req.Verifications.length = 0 := by omega
  have hle : ¬ req.Verifications.length > 100 := by omega
  simp only [BatchVerifyCredentials, hne, hle, if_false]
  generalize req.Verifications.foldl (batchIteration s now)
    { response := { Results := [], Summary := { Total := 0, Verified := 0, Failed := 0 } }
      calls := [] } = st at hc hr hv hf ⊢
  refine ⟨{ st.response with
      Summary := { st.response.Summary with Total := req.Verifications.length } },
    ?_, ?_, rfl, ?_, ?_⟩
  · rw [hc]
    rfl
  · simpa using hr
  · simpa using hv
  · simpa using hf

/-! ## Theorems on `BatchVerifyCredentials` -/

/-- C8: for every accepted batch (between 1 and 100 pairs) the handler answers
200 with a summary in which `total` is the number of input pairs, `verified`
is the number of pairs whose ownership verification returned no error and
`is_owner` true, `failed` is the number of pairs whose ownership verification
returned an error, and `verified + failed ≤ total`. -/
theorem BatchVerifyCredentials_summary (s : Server) (now : Time)
    (req : BatchVerificationRequest)
    (h1 : 1 ≤ req.Verifications.length) (h100 : req.Verifications.length ≤ 100) :
    ∃ body, (BatchVerifyCredentials s now (.ok req)).1 = .JSON StatusOK body ∧
      body.Summary.Total = req.Verifications.length ∧
      body.Summary.Verified = req.Verifications.countP (fun p =>
        (s.verificationService.VerifyCredentialOwnership p.WalletAddress p.CredentialID).2.isNone
        && (s.verificationService.VerifyCredentialOwnership p.WalletAddress
              p.CredentialID).1.IsOwner) ∧
      body.Summary.Failed = req.Verifications.countP (fun p =>
        (s.verificationService.VerifyCredentialOwnership p.WalletAddress
          p.CredentialID).2.isSome) ∧
      body.Summary.Verified + body.Summary.Failed ≤ body.Summary.Total := by
  obtain ⟨body, hb, _, ht, hv, hf⟩ := BatchVerifyCredentials_accepted s now req h1 h100
  refine ⟨body, by rw [hb], ht, hv, hf, ?_⟩
  rw [ht, hv, hf]
  have hle := countP_add_countP_le
    (fun p : Verification =>
      (s.verificationService.VerifyCredentialOwnership p.WalletAddress p.CredentialID).2.isNone
      && (s.verificationService.VerifyCredentialOwnership p.WalletAddress
            p.CredentialID).1.IsOwner)
    (fun p : Verification =>
      (s.verificationService.VerifyCredentialOwnership p.WalletAddress p.CredentialID).2.isSome)
    req.Verifications
    (by
      intro a ⟨ha, hb⟩
      cases hopt : (s.verificationService.VerifyCredentialOwnership a.WalletAddress
        a.CredentialID).2 <;> simp [hopt] at ha hb)
  exact_mod_cast hle

/-- Witness of C8: the mixed batch of three pairs. -/
theorem BatchVerifyCredentials_summary_witness :
    1 ≤ sampleBatch.Verifications.length ∧ sampleBatch.Verifications.length ≤ 100 ∧
    ∃ body, (BatchVerifyCredentials sampleServer sampleNow (.ok sampleBatch)).1 =
        .JSON StatusOK body ∧
      body.Summary.Total = sampleBatch.Verifications.length ∧
      body.Summary.Verified = sampleBatch.Verifications.countP (fun p =>
        (sampleServer.verificationService.VerifyCredentialOwnership p.WalletAddress
          p.CredentialID).2.isNone
        && (sampleServer.verificationService.VerifyCredentialOwnership p.WalletAddress
              p.CredentialID).1.IsOwner) ∧
      body.Summary.Failed = sampleBatch.Verifications.countP (fun p =>
        (sampleServer.verificationService.VerifyCredentialOwnership p.WalletAddress
          p.CredentialID).2.isSome) ∧
      body.Summary.Verified + body.Summary.Failed ≤ body.Summary.Total :=
  ⟨by decide, by decide,
   BatchVerifyCredentials_summary sampleServer sampleNow sampleBatch (by decide) (by decide)⟩

/-- C9: for every accepted batch (between 1 and 100 pairs) the handler answers
200, calls the ownership service on every pair in input order, and returns
one result per pair in input order: at each index the result the service
returned when it returned no error, and otherwise a result with the pair's
wallet address and credential id, `is_owner` false, the verification method
"batch_verification" and the metadata made of the single key "error" with the
error's message. -/
theorem BatchVerifyCredentials_results (s : Server) (now : Time)
    (req : BatchVerificationRequest)
    (h1 : 1 ≤ req.Verifications.length) (h100 : req.Verifications.length ≤ 100) :
    ∃ body, (BatchVerifyCredentials s now (.ok req)).1 = .JSON StatusOK body ∧
      (BatchVerifyCredentials s now (.ok req)).2 = req.Verifications ∧
      body.Results.length = req.Verifications.length ∧
      ∀ (i : Nat) (hi : i < req.Verifications.length),
        ∃ r, body.Results[i]? = some r ∧
          (∀ res, s.verificationService.VerifyCredentialOwnership
              req.Verifications[i].WalletAddress req.Verifications[i].CredentialID = (res, none) →
            r = res) ∧
          (∀ res err, s.verificationService.VerifyCredentialOwnership
              req.Verifications[i].WalletAddress req.Verifications[i].CredentialID =
                (res, some err) →
            r.WalletAddress = req.Verifications[i].WalletAddress ∧
            r.CredentialID = req.Verifications[i].CredentialID.String ∧
            r.IsOwner = false ∧
            r.VerificationMethod = "batch_verification" ∧
            r.Metadata = [("error", .str err.msg)]) := by
  obtain ⟨body, hb, hr, _⟩ := BatchVerifyCredentials_accepted s now req h1 h100
  refine ⟨body, by rw [hb], by rw [hb], by rw [hr, List.length_map], ?_⟩
  intro i hi
  refine ⟨batchEntry s now req.Verifications[i], ?_, ?_, ?_⟩
  · rw [hr, List.getElem?_map, List.getElem?_eq_getElem hi]
    rfl
  · intro res hres
    simp [batchEntry, hres]
  · intro res err hres
    simp [batchEntry, hres]

/-- Witness of C9: the mixed batch of three pairs. -/
theorem BatchVerifyCredentials_results_witness :
    1 ≤ sampleBatch.Verifications.length ∧ sampleBatch.Verifications.length ≤ 100 ∧
    ∃ body, (BatchVerifyCredentials sampleServer sampleNow (.ok sampleBatch)).1 =
        .JSON StatusOK body ∧
      (BatchVerifyCredentials sampleServer sampleNow (.ok sampleBatch)).2 =
        sampleBatch.Verifications ∧
      body.Results.length = sampleBatch.Verifications.length ∧
      ∀ (i : Nat) (hi : i < sampleBatch.Verifications.length),
        ∃ r, body.Results[i]? = some r ∧
          (∀ res, sampleServer.verificationService.VerifyCredentialOwnership
              sampleBatch.Verifications[i].WalletAddress
              sampleBatch.Verifications[i].CredentialID = (res, none) →
            r = res) ∧
          (∀ res err, sampleServer.verificationService.VerifyCredentialOwnership
              sampleBatch.Verifications[i].WalletAddress
              sampleBatch.Verifications[i].CredentialID = (res, some err) →
            r.WalletAddress = sampleBatch.Verifications[i].WalletAddress ∧
            r.CredentialID = sampleBatch.Verifications[i].CredentialID.String ∧
            r.IsOwner = false ∧
            r.VerificationMethod = "batch_verification" ∧
            r.Metadata = [("error", .str err.msg)]) :=
  ⟨by decide, by decide,
   BatchVerifyCredentials_results sampleServer sampleNow sampleBatch (by decide) (by decide)⟩

/-- C10: on a decoded request the handler answers bad-request exactly when the
number of pairs is 0 or greater than 100, and then calls the ownership service
on no pair; every batch of 1 to 100 pairs is answered 200, whatever the
ownership service returns, after a call on each pair. -/
theorem BatchVerifyCredentials_bounds (s : Server) (now : Time)
    (req : BatchVerificationRequest) :
    ((BatchVerifyCredentials s now (.ok req)).1.code = StatusBadRequest ↔
      (req.Verifications.length = 0 ∨ 100 < req.Verifications.length)) ∧
    ((req.Verifications.length = 0 ∨ 100 < req.Verifications.length) →
      (BatchVerifyCredentials s now (.ok req)).2 = []) ∧
    ((1 ≤ req.Verifications.length ∧ req.Verifications.length ≤ 100) →
      (BatchVerifyCredentials s now (.ok req)).1.code = StatusOK ∧
      (BatchVerifyCredentials s now (.ok req)).2 = req.Verifications) := by
  have hrej : (req.Verifications.length = 0 ∨ 100 < req.Verifications.length) →
      (BatchVerifyCredentials s now (.ok req)).1.code = StatusBadRequest ∧
      (BatchVerifyCredentials s now (.ok req)).2 = [] := by
    intro h
    rcases h with h0 | hbig
    · simp [BatchVerifyCredentials, h0, HTTPResponse.code]
    · have hne : ¬ req.Verifications.length = 0 := by omega
      simp [BatchVerifyCredentials, hne, hbig, HTTPResponse.code]
  have hacc : (1 ≤ req.Verifications.length ∧ req.Verifications.length ≤ 100) →
      (BatchVerifyCredentials s now (.ok req)).1.code = StatusOK ∧
      (BatchVerifyCredentials s now (.ok req)).2 = req.Verifications := by
    intro ⟨h1, h100⟩
    obtain ⟨body, hb, _⟩ := BatchVerifyCredentials_accepted s now req h1 h100
    rw [hb]
    exact ⟨rfl, rfl⟩
  refine ⟨⟨?_, fun h => (hrej h).1⟩, fun h => (hrej h).2, hacc⟩
  intro hcode
  by_contra hnot
  have hin : 1 ≤ req.Verifications.length ∧ req.Verifications.length ≤ 100 := by omega
  rw [(hacc hin).1] at hcode
  exact absurd hcode (by decide)

/-- Witness of C10: the batches of 0, 101 and 100 pairs. -/
theorem BatchVerifyCredentials_bounds_witness :
    ((BatchVerifyCredentials sampleServer sampleNow (.ok emptyBatch)).1.code =
        StatusBadRequest ∧
     (BatchVerifyCredentials sampleServer sampleNow (.ok emptyBatch)).2 = []) ∧
    ((BatchVerifyCredentials sampleServer sampleNow (.ok oversizedBatch)).1.code =
        StatusBadRequest ∧
     (BatchVerifyCredentials sampleServer sampleNow (.ok oversizedBatch)).2 = []) ∧
    ((BatchVerifyCredentials sampleServer sampleNow (.ok fullBatch)).1.code = StatusOK ∧
     (BatchVerifyCredentials sampleServer sampleNow (.ok fullBatch)).2 =
        fullBatch.Verifications) :=
  ⟨⟨(BatchVerifyCredentials_bounds sampleServer sampleNow emptyBatch).1.mpr (Or.inl rfl),
    (BatchVerifyCredentials_bounds sampleServer sampleNow emptyBatch).2.1 (Or.inl rfl)⟩,
   ⟨(BatchVerifyCredentials_bounds sampleServer sampleNow oversizedBatch).1.mpr
      (Or.inr (by simp [oversizedBatch])),
    (BatchVerifyCredentials_bounds sampleServer sampleNow oversizedBatch).2.1
      (Or.inr (by simp [oversizedBatch]))⟩,
   (BatchVerifyCredentials_bounds sampleServer sampleNow fullBatch).2.2
      ⟨by simp [fullBatch], by simp [fullBatch]⟩⟩

/-! ## Theorems on `VerifyCredentialOwnership` -/

/-- A wallet that fails the hex-address check does not resolve to a DID. -/
theorem walletAddressToDID_rejected (v : verification) (walletAddress : String)
    (hbad : v.IsHexAddress walletAddress = false) :
    walletAddressToDID v walletAddress =
      .error (fmtErrorf ("invalid wallet address format: " ++ walletAddress)) := by
  simp [walletAddressToDID, hbad]

/-- The return value of the ownership check on a rejected wallet. -/
theorem VerifyCredentialOwnership_rejected (v : verification) (now : Time)
    (walletAddress : String) (credentialID : UUID)
    (hbad : v.IsHexAddress walletAddress = false) :
    VerifyCredentialOwnership v now walletAddress credentialID =
      ({ WalletAddress := walletAddress, CredentialID := credentialID.String, IsOwner := false,
         Credential := none, VerificationMethod := "direct_lookup", Timestamp := now.Unix,
         Metadata := [] },
       some (errorsWrap (fmtErrorf ("invalid wallet address format: " ++ walletAddress))
        "failed to convert wallet address to DID")) := by
  simp [VerifyCredentialOwnership, returning, walletAddressToDID_rejected v walletAddress hbad,
    bind, Except.bind]

/-- C11: for a wallet string that fails the hex-address check,
`VerifyCredentialOwnership` returns a non-nil error (the wrapped "invalid
wallet address format"), hence never a nil-error result with `is_owner`
false, and its return value is the same over every service state that rejects
the wallet: no repository lookup takes part in it. -/
theorem VerifyCredentialOwnership_invalid_address (v v' : verification) (now : Time)
    (walletAddress : String) (credentialID : UUID)
    (h : v.IsHexAddress walletAddress = false) (h' : v'.IsHexAddress walletAddress = false) :
    (VerifyCredentialOwnership v now walletAddress credentialID).2 =
      some (errorsWrap (fmtErrorf ("invalid wallet address format: " ++ walletAddress))
        "failed to convert wallet address to DID") ∧
    ¬ ((VerifyCredentialOwnership v now walletAddress credentialID).2 = none ∧
       (VerifyCredentialOwnership v now walletAddress credentialID).1.IsOwner = false) ∧
    VerifyCredentialOwnership v' now walletAddress credentialID =
      VerifyCredentialOwnership v now walletAddress credentialID := by
  rw [VerifyCredentialOwnership_rejected v now walletAddress credentialID h,
    VerifyCredentialOwnership_rejected v' now walletAddress credentialID h']
  simp

/-- Witness of C11: the text "xyz", over the repository that holds the sample
claim and over the one that holds a claim for the wallet as subject. -/
theorem VerifyCredentialOwnership_invalid_address_witness :
    sampleVerification.IsHexAddress malformedWallet = false ∧
    subjectVerification.IsHexAddress malformedWallet = false ∧
    ((VerifyCredentialOwnership sampleVerification sampleNow malformedWallet sampleClaim.ID).2 =
      some (errorsWrap (fmtErrorf ("invalid wallet address format: " ++ malformedWallet))
        "failed to convert wallet address to DID") ∧
     ¬ ((VerifyCredentialOwnership sampleVerification sampleNow malformedWallet
          sampleClaim.ID).2 = none ∧
        (VerifyCredentialOwnership sampleVerification sampleNow malformedWallet
          sampleClaim.ID).1.IsOwner = false) ∧
     VerifyCredentialOwnership subjectVerification sampleNow malformedWallet sampleClaim.ID =
       VerifyCredentialOwnership sampleVerification sampleNow malformedWallet sampleClaim.ID) :=
  ⟨by decide, by decide,
   VerifyCredentialOwnership_invalid_address sampleVerification subjectVerification sampleNow
     malformedWallet sampleClaim.ID (by decide) (by decide)⟩

/-- C12: when the wallet resolves to a DID and the lookup by id and issuer
fails with an error that is `ErrCredentialNotFound`, `VerifyCredentialOwnership`
returns a nil error and the unchanged skeleton: `is_owner` false, the method
"direct_lookup", no credential and empty metadata. This holds whatever claims
the store holds, so in particular when none has the wallet's DID as subject. -/
theorem VerifyCredentialOwnership_not_found (v : verification) (now : Time)
    (walletAddress : String) (credentialID : UUID) (did : DID) (err : GoError)
    (hdid : walletAddressToDID v walletAddress = .ok did)
    (hget : v.GetByIdAndIssuer did credentialID = .error err)
    (hnf : err.isCredentialNotFound = true) :
    VerifyCredentialOwnership v now walletAddress credentialID =
      ({ WalletAddress := walletAddress, CredentialID := credentialID.String, IsOwner := false,
         Credential := none, VerificationMethod := "direct_lookup", Timestamp := now.Unix,
         Metadata := [] }, none) := by
  simp [VerifyCredentialOwnership, returning, hdid, hget, hnf, findCredentialBySubject, bind,
    Except.bind, pure, Except.pure]

/-- Witness of C12: the sample wallet and an id that no claim carries. -/
theorem VerifyCredentialOwnership_not_found_witness :
    walletAddressToDID sampleVerification sampleWallet = .ok sampleDID ∧
    sampleVerification.GetByIdAndIssuer sampleDID absentID = .error ErrCredentialNotFound ∧
    ErrCredentialNotFound.isCredentialNotFound = true ∧
    VerifyCredentialOwnership sampleVerification sampleNow sampleWallet absentID =
      ({ WalletAddress := sampleWallet, CredentialID := absentID.String, IsOwner := false,
         Credential := none, VerificationMethod := "direct_lookup",
         Timestamp := sampleNow.Unix, Metadata := [] }, none) :=
  ⟨rfl, rfl, rfl,
   VerifyCredentialOwnership_not_found sampleVerification sampleNow sampleWallet absentID
     sampleDID ErrCredentialNotFound rfl rfl rfl⟩

/-- C13, the code at the failing input: the repository holds `heldClaim`,
whose id is the requested one and whose subject is the DID that the sample
wallet resolves to; the lookup by id and issuer reports not found; and
`VerifyCredentialOwnership` returns a nil error with `is_owner` false and no
credential, because `findCredentialBySubject` reports not found on every
input. -/
theorem VerifyCredentialOwnership_subject_fallback_missing :
    walletAddressToDID subjectVerification sampleWallet = .ok sampleDID ∧
    subjectVerification.GetByIdAndIssuer sampleDID absentID = .error ErrCredentialNotFound ∧
    subjectVerification.GetAll issuerDID { SchemaID := none, SchemaType := none } =
      .ok [heldClaim] ∧
    heldClaim.ID = absentID ∧
    heldClaim.OtherIdentifier = sampleDID.text ∧
    findCredentialBySubject subjectVerification sampleWallet absentID =
      .error ErrCredentialNotFound ∧
    (VerifyCredentialOwnership subjectVerification sampleNow sampleWallet absentID).2 = none ∧
    (VerifyCredentialOwnership subjectVerification sampleNow sampleWallet absentID).1.IsOwner
      = false ∧
    (VerifyCredentialOwnership subjectVerification sampleNow sampleWallet
      absentID).1.Credential = none := by
  refine ⟨rfl, rfl, rfl, rfl, rfl, rfl, rfl, rfl, rfl⟩

/-- C14: when the wallet resolves to a DID and the lookup by id and issuer
returns a claim `c`, `VerifyCredentialOwnership` returns a nil error with
`is_owner` true, the method "direct_lookup", and metadata in which
`credential_type` is the schema type of `c`, `issuer_did` its identifier,
`issuance_date` its creation time, and `expiration_date` is present exactly
when `c` has an expiration (and is that expiration); the credential is the W3C
projection of `c` when the projection succeeds and is absent when it fails,
without any effect on the other fields or the error. -/
theorem VerifyCredentialOwnership_found (v : verification) (now : Time)
    (walletAddress : String) (credentialID : UUID) (did : DID) (c : Claim)
    (hdid : walletAddressToDID v walletAddress = .ok did)
    (hget : v.GetByIdAndIssuer did credentialID = .ok (some c)) :
    (VerifyCredentialOwnership v now walletAddress credentialID).2 = none ∧
    (VerifyCredentialOwnership v now walletAddress credentialID).1.IsOwner = true ∧
    (VerifyCredentialOwnership v now walletAddress credentialID).1.VerificationMethod =
      "direct_lookup" ∧
    (VerifyCredentialOwnership v now walletAddress credentialID).1.Metadata.get
      "credential_type" = some (.str c.SchemaType) ∧
    (VerifyCredentialOwnership v now walletAddress credentialID).1.Metadata.get
      "issuer_did" = some (.str c.Identifier) ∧
    (VerifyCredentialOwnership v now walletAddress credentialID).1.Metadata.get
      "issuance_date" = some (.time c.CreatedAt) ∧
    (VerifyCredentialOwnership v now walletAddress credentialID).1.Metadata.get
      "expiration_date" = c.Expiration.map Value.time ∧
    (VerifyCredentialOwnership v now walletAddress credentialID).1.Credential =
      (match v.FromClaimModelToW3CCredential c with
       | .ok w3cCred => some w3cCred
       | .error _ => none) := by
  cases hproj : v.FromClaimModelToW3CCredential c <;> cases hexp : c.Expiration <;>
    simp [VerifyCredentialOwnership, returning, hdid, hget, hproj, hexp, bind,
      Except.bind, pure, Except.pure, GoMap.set, GoMap.get, List.lookup, List.filter]

/-- Witness of C14: the sample wallet and the id of the sample claim. -/
theorem VerifyCredentialOwnership_found_witness :
    walletAddressToDID sampleVerification sampleWallet = .ok sampleDID ∧
    sampleVerification.GetByIdAndIssuer sampleDID sampleClaim.ID = .ok (some sampleClaim) ∧
    ((VerifyCredentialOwnership sampleVerification sampleNow sampleWallet sampleClaim.ID).2
      = none ∧
     (VerifyCredentialOwnership sampleVerification sampleNow sampleWallet
      sampleClaim.ID).1.IsOwner = true ∧
     (VerifyCredentialOwnership sampleVerification sampleNow sampleWallet
      sampleClaim.ID).1.VerificationMethod = "direct_lookup" ∧
     (VerifyCredentialOwnership sampleVerification sampleNow sampleWallet
      sampleClaim.ID).1.Metadata.get "credential_type" = some (.str sampleClaim.SchemaType) ∧
     (VerifyCredentialOwnership sampleVerification sampleNow sampleWallet
      sampleClaim.ID).1.Metadata.get "issuer_did" = some (.str sampleClaim.Identifier) ∧
     (VerifyCredentialOwnership sampleVerification sampleNow sampleWallet
      sampleClaim.ID).1.Metadata.get "issuance_date" = some (.time sampleClaim.CreatedAt) ∧
     (VerifyCredentialOwnership sampleVerification sampleNow sampleWallet
      sampleClaim.ID).1.Metadata.get "expiration_date" =
        sampleClaim.Expiration.map Value.time ∧
     (VerifyCredentialOwnership sampleVerification sampleNow sampleWallet
      sampleClaim.ID).1.Credential =
      (match sampleVerification.FromClaimModelToW3CCredential sampleClaim with
       | .ok w3cCred => some w3cCred
       | .error _ => none)) :=
  ⟨rfl, rfl,
   VerifyCredentialOwnership_found sampleVerification sampleNow sampleWallet sampleClaim.ID
     sampleDID sampleClaim rfl rfl⟩

/-! ## Theorems on `walletAddressToDID` -/

/-- Trimming "0x" leaves a text of hexadecimal digits as it is, and takes the
prefix "0x" off again. -/
theorem TrimPrefix_hex (h : String) (hh : ∀ c ∈ h.data, isHexCharacter c = true) :
    TrimPrefix h "0x" = h ∧ TrimPrefix ("0x" ++ h) "0x" = h := by
  constructor
  · have hnot : ("0x" : String).data.isPrefixOf h.data = false := by
      rcases hd : h.data with _ | ⟨c0, _ | ⟨c1, rest⟩⟩
      · rfl
      · simp [List.isPrefixOf]
      · have hc1 : isHexCharacter c1 = true := hh c1 (by simp [hd])
        have hx : c1 ≠ 'x' := by
          intro hx
          rw [hx] at hc1
          exact absurd hc1 (by decide)
        simp [List.isPrefixOf]
        intro _ hx'
        exact absurd hx'.symm hx
    simp [TrimPrefix, hnot]
  · have hpre : ("0x" : String).data.isPrefixOf ("0x" ++ h).data = true := by
      simp [String.data_append, List.isPrefixOf]
    have hdrop : String.mk (("0x" ++ h).data.drop ("0x" : String).data.length) = h := by
      simp [String.data_append]
    simp only [TrimPrefix, hpre, if_true, hdrop]

/-- C15, counterexample: the sample wallet and the same address with its
letters in upper case are both accepted and equal after stripping "0x" and
ignoring case, and resolve to different DIDs under a DID parser that keeps
the identifier as written. -/
theorem walletAddressToDID_case_counterexample :
    sampleVerification.IsHexAddress sampleWallet = true ∧
    sampleVerification.IsHexAddress upperWallet = true ∧
    (TrimPrefix sampleWallet "0x").data.map Char.toLower =
      (TrimPrefix upperWallet "0x").data.map Char.toLower ∧
    walletAddressToDID sampleVerification sampleWallet = .ok sampleDID ∧
    walletAddressToDID sampleVerification upperWallet = .ok upperDID ∧
    walletAddressToDID sampleVerification sampleWallet ≠
      walletAddressToDID sampleVerification upperWallet := by
  refine ⟨by decide, by decide, by decide, rfl, rfl, ?_⟩
  intro h
  have h1 : walletAddressToDID sampleVerification sampleWallet = .ok sampleDID := rfl
  have h2 : walletAddressToDID sampleVerification upperWallet = .ok upperDID := rfl
  rw [h1, h2] at h
  exact absurd (DID.mk.inj (Except.ok.inj h)) (by decide)

/-- C15 as amended: the resolver depends only on the text left after
stripping a leading "0x": two accepted wallet addresses with the same stripped
text (character for character) resolve to the same result, and for every text
`h` of hexadecimal digits such that `h` and "0x" followed by `h` are both
accepted, the two resolve to the same result. -/
theorem walletAddressToDID_stripped (v : verification) (a b : String)
    (ha : v.IsHexAddress a = true) (hb : v.IsHexAddress b = true)
    (hab : TrimPrefix a "0x" = TrimPrefix b "0x") :
    walletAddressToDID v a = walletAddressToDID v b ∧
    ∀ h : String, (∀ c ∈ h.data, isHexCharacter c = true) →
      v.IsHexAddress h = true → v.IsHexAddress ("0x" ++ h) = true →
      walletAddressToDID v h = walletAddressToDID v ("0x" ++ h) := by
  constructor
  · simp [walletAddressToDID, ha, hb, hab]
  · intro h hh h1 h2
    obtain ⟨e1, e2⟩ := TrimPrefix_hex h hh
    simp [walletAddressToDID, h1, h2, e1, e2]

/-- Witness of C15 as amended: the sample wallet without and with "0x". -/
theorem walletAddressToDID_stripped_witness :
    sampleVerification.IsHexAddress "00000000000000000000000000000000000000ab" = true ∧
    sampleVerification.IsHexAddress sampleWallet = true ∧
    TrimPrefix "00000000000000000000000000000000000000ab" "0x" = TrimPrefix sampleWallet "0x" ∧
    walletAddressToDID sampleVerification "00000000000000000000000000000000000000ab" =
      walletAddressToDID sampleVerification sampleWallet ∧
    walletAddressToDID sampleVerification sampleWallet = .ok sampleDID :=
  ⟨by decide, by decide, by decide,
   (walletAddressToDID_stripped sampleVerification
     "00000000000000000000000000000000000000ab" sampleWallet
     (by decide) (by decide) (by decide)).1,
   rfl⟩

/-! ## Theorems on `convertToVerifiedCredential` -/

/-- C16: for a claim that projects successfully, with the clock reading `now`,
`convertToVerifiedCredential` returns a credential whose `is_expired` is true
exactly when the claim has an expiration and `now` is strictly after it, and
whose `expiration_date` is the epoch-seconds value of the expiration when
there is one; a claim without expiration gets `is_expired` false and no
`expiration_date`, and a claim that expires at `now` is not expired. -/
theorem convertToVerifiedCredential_expiration (v : verification) (now : Time)
    (claim : Claim) (w3cCred : W3CCredential)
    (hproj : v.FromClaimModelToW3CCredential claim = .ok w3cCred) :
    ∃ verifiedCred, convertToVerifiedCredential v now claim = .ok verifiedCred ∧
      verifiedCred.IsExpired =
        (match claim.Expiration with
         | some expiration => decide (expiration.nanos < now.nanos)
         | none => false) ∧
      verifiedCred.ExpirationDate = claim.Expiration.map Time.Unix ∧
      (claim.Expiration = none →
        verifiedCred.IsExpired = false ∧ verifiedCred.ExpirationDate = none) ∧
      (claim.Expiration = some now → verifiedCred.IsExpired = false) := by
  cases hexp : claim.Expiration <;>
  rcases hs : w3cCred.CredentialSubject with _ | m | _
  case none.map | some.map =>
    rcases hm : GoMap.get m "id" with _ | (_ | _ | _ | _) <;>
      simp [convertToVerifiedCredential, hproj, hexp, hs, hm, Time.After] <;>
      (intro he; simp [he])
  all_goals
    simp [convertToVerifiedCredential, hproj, hexp, hs, Time.After]
  all_goals
    intro he
    simp [he]

/-- Witness of C16: the claim that expires at the clock reading. -/
theorem convertToVerifiedCredential_expiration_witness :
    subjectVerification.FromClaimModelToW3CCredential heldClaim =
      .ok { ID := "650e8400-e29b-41d4-a716-446655440000",
            CredentialSubject := .map [("id", .str sampleDID.text)] } ∧
    ∃ verifiedCred,
      convertToVerifiedCredential subjectVerification sampleNow heldClaim = .ok verifiedCred ∧
      verifiedCred.IsExpired =
        (match heldClaim.Expiration with
         | some expiration => decide (expiration.nanos < sampleNow.nanos)
         | none => false) ∧
      verifiedCred.ExpirationDate = heldClaim.Expiration.map Time.Unix ∧
      (heldClaim.Expiration = none →
        verifiedCred.IsExpired = false ∧ verifiedCred.ExpirationDate = none) ∧
      (heldClaim.Expiration = some sampleNow → verifiedCred.IsExpired = false) :=
  ⟨rfl,
   convertToVerifiedCredential_expiration subjectVerification sampleNow heldClaim
     { ID := "650e8400-e29b-41d4-a716-446655440000",
       CredentialSubject := .map [("id", .str sampleDID.text)] } rfl⟩

/-! ## Theorems on the endpoints -/

/-- The proof verification of the service returns a nil error on every input. -/
theorem VerifyZKProof_error_nil (v : verification) (now : Time)
    (req : ZKProofVerificationRequest) : (VerifyZKProof v now req).2 = none := by
  unfold VerifyZKProof
  simp only
  split
  · rfl
  · split
    · rfl
    · split
      · split <;> rfl
      · rfl

/-- C17, counterexample: the text "xyz" fails the hex-address check and is
answered with the internal-error status at the ownership endpoint and with 200
at the proof endpoint; a batch whose only pair has the empty string as wallet
is answered with 200. -/
theorem endpoints_malformed_wallet_counterexample :
    sampleVerification.IsHexAddress malformedWallet = false ∧
    sampleVerification.IsHexAddress "" = false ∧
    ¬ ((serverOver sampleVerification sampleNow).VerifyCredentialOwnership malformedWallet
        (.ok absentID)).code = StatusBadRequest ∧
    ((serverOver sampleVerification sampleNow).VerifyCredentialOwnership malformedWallet
        (.ok absentID)).code = StatusInternalServerError ∧
    ((serverOver sampleVerification sampleNow).VerifyZKProof (.ok otherProofRequest)).code =
      StatusOK ∧
    (BatchVerifyCredentials (serverOver sampleVerification sampleNow) sampleNow
      (.ok emptyWalletBatch)).1.code = StatusOK := by
  refine ⟨by decide, by decide, by decide, by decide, by decide, by decide⟩

/-- C17 as amended: let a wallet address fail the hex-address check. If it is
the empty string, the five single-wallet endpoints (ownership, by-schema,
by-type, wallet credentials, proof) of every server answer bad-request. If it
is not empty, then on a server over the verification service the ownership,
by-schema, by-type and wallet-credentials endpoints answer with the
internal-error status when their other parameters are valid, and the proof
endpoint answers a well-formed request with 200. A batch of at most 100 pairs
that contains a pair with this wallet is answered with 200, and its results
hold an entry for the wallet with `is_owner` false and the method
"batch_verification". -/
theorem endpoints_wallet_check (s : Server) (v : verification) (now : Time)
    (walletAddress : String) (credentialID : UUID) (schemaURL credentialType : String)
    (req : ZKProofVerificationRequest) (batch : BatchVerificationRequest)
    (hbad : v.IsHexAddress walletAddress = false)
    (hschema : schemaURL ≠ "") (htype : credentialType ≠ "")
    (hreq : req.WalletAddress = walletAddress) (hcirc : req.CircuitID ≠ "")
    (hsig : req.PublicSignals ≠ [])
    (hmem : { WalletAddress := walletAddress, CredentialID := credentialID } ∈
      batch.Verifications)
    (h100 : batch.Verifications.length ≤ 100) :
    (walletAddress = "" →
      (s.VerifyCredentialOwnership walletAddress (.ok credentialID)).code = StatusBadRequest ∧
      (s.VerifyCredentialsBySchema walletAddress schemaURL).code = StatusBadRequest ∧
      (s.VerifyCredentialsByType walletAddress credentialType).code = StatusBadRequest ∧
      (s.GetWalletCredentials walletAddress).code = StatusBadRequest ∧
      (s.VerifyZKProof (.ok req)).code = StatusBadRequest) ∧
    (walletAddress ≠ "" →
      ((serverOver v now).VerifyCredentialOwnership walletAddress (.ok credentialID)).code =
        StatusInternalServerError ∧
      ((serverOver v now).VerifyCredentialsBySchema walletAddress schemaURL).code =
        StatusInternalServerError ∧
      ((serverOver v now).VerifyCredentialsByType walletAddress credentialType).code =
        StatusInternalServerError ∧
      ((serverOver v now).GetWalletCredentials walletAddress).code =
        StatusInternalServerError ∧
      ((serverOver v now).VerifyZKProof (.ok req)).code = StatusOK) ∧
    (∃ body, (BatchVerifyCredentials (serverOver v now) now (.ok batch)).1 =
        .JSON StatusOK body ∧
      ∃ r ∈ body.Results, r.WalletAddress = walletAddress ∧ r.IsOwner = false ∧
        r.VerificationMethod = "batch_verification") := by
  have hdid := walletAddressToDID_rejected v walletAddress hbad
  refine ⟨?_, ?_, ?_⟩
  · intro hw
    have hw' : req.WalletAddress = "" := by rw [hreq, hw]
    simp [Server.VerifyCredentialOwnership, Server.VerifyCredentialsBySchema,
      Server.VerifyCredentialsByType, Server.GetWalletCredentials, Server.VerifyZKProof, hw, hw',
      HTTPResponse.code]
  · intro hw
    have hw' : ¬ req.WalletAddress = "" := by rw [hreq]; exact hw
    have hlen : ¬ req.PublicSignals.length = 0 := by
      intro h0
      exact hsig (List.length_eq_zero.mp h0)
    refine ⟨?_, ?_, ?_, ?_, ?_⟩
    · simp [Server.VerifyCredentialOwnership, serverOver, NewVerificationService, hw,
        VerifyCredentialOwnership_rejected v now walletAddress credentialID hbad,
        HTTPResponse.code]
    · simp [Server.VerifyCredentialsBySchema, serverOver, NewVerificationService, hw, hschema,
        VerifyCredentialsBySchema, findCredentialsBySchema, hdid, HTTPResponse.code]
    · simp [Server.VerifyCredentialsByType, serverOver, NewVerificationService, hw, htype,
        VerifyCredentialsByType, findCredentialsByType, hdid, HTTPResponse.code]
    · simp [Server.GetWalletCredentials, serverOver, NewVerificationService, hw,
        GetWalletCredentials, findAllCredentialsForWallet, hdid, HTTPResponse.code]
    · have hzk := VerifyZKProof_error_nil v now req
      rcases hres : VerifyZKProof v now req with ⟨res, err⟩
      rw [hres] at hzk
      simp only at hzk
      subst hzk
      simp [Server.VerifyZKProof, serverOver, NewVerificationService, hw', hcirc, hlen, hres,
        HTTPResponse.code]
  · have h1 : 1 ≤ batch.Verifications.length := List.length_pos_of_mem hmem
    obtain ⟨body, hb, hr, _⟩ :=
      BatchVerifyCredentials_accepted (serverOver v now) now batch h1 h100
    refine ⟨body, by rw [hb], ?_⟩
    refine ⟨batchEntry (serverOver v now) now
      { WalletAddress := walletAddress, CredentialID := credentialID }, ?_, ?_⟩
    · rw [hr]
      exact List.mem_map_of_mem _ hmem
    · simp [batchEntry, serverOver, NewVerificationService,
        VerifyCredentialOwnership_rejected v now walletAddress credentialID hbad]

/-- Witness of C17 as amended: the text "xyz" at each endpoint. -/
theorem endpoints_wallet_check_witness :
    sampleVerification.IsHexAddress malformedWallet = false ∧
    malformedWallet ≠ "" ∧
    (((serverOver sampleVerification sampleNow).VerifyCredentialOwnership malformedWallet
        (.ok absentID)).code = StatusInternalServerError ∧
     ((serverOver sampleVerification sampleNow).VerifyCredentialsBySchema malformedWallet
        schemaRequirements.SchemaURL).code = StatusInternalServerError ∧
     ((serverOver sampleVerification sampleNow).VerifyCredentialsByType malformedWallet
        sampleClaim.SchemaType).code = StatusInternalServerError ∧
     ((serverOver sampleVerification sampleNow).GetWalletCredentials malformedWallet).code =
        StatusInternalServerError ∧
     ((serverOver sampleVerification sampleNow).VerifyZKProof (.ok otherProofRequest)).code =
        StatusOK) ∧
    (∃ body, (BatchVerifyCredentials (serverOver sampleVerification sampleNow) sampleNow
        (.ok malformedBatch)).1 = .JSON StatusOK body ∧
      ∃ r ∈ body.Results, r.WalletAddress = malformedWallet ∧ r.IsOwner = false ∧
        r.VerificationMethod = "batch_verification") :=
  ⟨by decide, by decide,
   (endpoints_wallet_check sampleServer sampleVerification sampleNow malformedWallet absentID
      schemaRequirements.SchemaURL sampleClaim.SchemaType otherProofRequest malformedBatch
      (by decide) (by decide) (by decide) rfl (by decide) (by decide) (by decide)
      (by decide)).2.1 (by decide),
   (endpoints_wallet_check sampleServer sampleVerification sampleNow malformedWallet absentID
      schemaRequirements.SchemaURL sampleClaim.SchemaType otherProofRequest malformedBatch
      (by decide) (by decide) (by decide) rfl (by decide) (by decide) (by decide)
      (by decide)).2.2⟩

/-- C18: for a request with the auth-v2 circuit identifier, `proof_verified`
is true exactly when there are at least two public signals; and a second
auth-v2 request with the same number of public signals and the same
requirements, and the same wallet address unless the requirements are nil,
gets the same `proof_verified` and the same `is_valid`, whatever its proof map,
its challenge and the values of its public signals. -/
theorem VerifyZKProof_auth_signal_count (v : verification) (now : Time)
    (req req' : ZKProofVerificationRequest)
    (hc : req.CircuitID = AuthV2CircuitID) (hc' : req'.CircuitID = AuthV2CircuitID)
    (hlen : req'.PublicSignals.length = req.PublicSignals.length)
    (hreqs : req'.Requirements = req.Requirements)
    (hwallet : req.Requirements ≠ none → req'.WalletAddress = req.WalletAddress) :
    ((VerifyZKProof v now req).1.ProofVerified = true ↔ 2 ≤ req.PublicSignals.length) ∧
    (VerifyZKProof v now req').1.ProofVerified = (VerifyZKProof v now req).1.ProofVerified ∧
    (VerifyZKProof v now req').1.IsValid = (VerifyZKProof v now req).1.IsValid := by
  by_cases h2 : 2 ≤ req.PublicSignals.length
  · have hcr : verifyProofCryptography req = (true, none) := by
      have : ¬ req.PublicSignals.length < 2 := by omega
      simp [verifyProofCryptography, hc, verifyAuthCircuit, this]
    have hcr' : verifyProofCryptography req' = (true, none) := by
      have : ¬ req'.PublicSignals.length < 2 := by omega
      simp [verifyProofCryptography, hc', verifyAuthCircuit, this]
    cases hrq : req.Requirements with
    | none =>
      have hrq' : req'.Requirements = none := by rw [hreqs, hrq]
      simp [VerifyZKProof, hcr, hcr', hrq, hrq', h2]
    | some rq =>
      have hrq' : req'.Requirements = some rq := by rw [hreqs, hrq]
      have hw : req'.WalletAddress = req.WalletAddress := hwallet (by simp [hrq])
      have hvr : verifyProofRequirements v now req' rq =
          verifyProofRequirements v now req rq := by
        simp [verifyProofRequirements, hw]
      simp only [VerifyZKProof, hcr, hcr', hrq, hrq', hvr]
      rcases verifyProofRequirements v now req rq with ⟨b, o, _ | e⟩ <;> simp [h2]
  · have hcr : verifyProofCryptography req =
        (false, some (fmtErrorf "insufficient public signals for auth circuit")) := by
      have : req.PublicSignals.length < 2 := by omega
      simp [verifyProofCryptography, hc, verifyAuthCircuit, this]
    have hcr' : verifyProofCryptography req' =
        (false, some (fmtErrorf "insufficient public signals for auth circuit")) := by
      have : req'.PublicSignals.length < 2 := by omega
      simp [verifyProofCryptography, hc', verifyAuthCircuit, this]
    simp [VerifyZKProof, hcr, hcr', h2]

/-- Witness of C18: the sample request and the request that differs from it
in the wallet, the proof map, the challenge and the values of the signals. -/
theorem VerifyZKProof_auth_signal_count_witness :
    sampleProofRequest.CircuitID = AuthV2CircuitID ∧
    otherProofRequest.CircuitID = AuthV2CircuitID ∧
    otherProofRequest.PublicSignals.length = sampleProofRequest.PublicSignals.length ∧
    otherProofRequest.Requirements = sampleProofRequest.Requirements ∧
    (((VerifyZKProof sampleVerification sampleNow sampleProofRequest).1.ProofVerified = true ↔
        2 ≤ sampleProofRequest.PublicSignals.length) ∧
     (VerifyZKProof sampleVerification sampleNow otherProofRequest).1.ProofVerified =
       (VerifyZKProof sampleVerification sampleNow sampleProofRequest).1.ProofVerified ∧
     (VerifyZKProof sampleVerification sampleNow otherProofRequest).1.IsValid =
       (VerifyZKProof sampleVerification sampleNow sampleProofRequest).1.IsValid) :=
  ⟨rfl, rfl, rfl, rfl,
   VerifyZKProof_auth_signal_count sampleVerification sampleNow sampleProofRequest
     otherProofRequest rfl rfl rfl rfl (fun h => absurd rfl h)⟩

end Gate
